import Mathlib

/-!
Storefront front-end: filter, pagination, cart totals and cart handlers.

A shallow embedding of the client-side logic of the storefront pages
(`ProductPage.jsx`, `Cart.jsx`, `Checkout.jsx`, `Home.jsx`, `ViewProduct.jsx`,
`Navbar.jsx`).

Conventions of the embedding:

* JavaScript numbers that carry prices, quantities, ids and page numbers are
  integers (`Int`); a property that may be absent is an `Option`.
* A callback that may throw returns `Except JsError _`.
* An `async` handler is a function from its inputs (component state, stored
  token, outcome of the awaited service call) to the list of effects it
  performs, in program order.
-/

namespace Storefront

/-! ## JavaScript primitives used by the pages -/

/-- Errors a page callback can raise. -/
inductive JsError where
  | typeError (msg : String)
  /-- The rejection reason of an awaited promise, rethrown by `await`. -/
  | rejectedPromise
deriving DecidableEq, Repr

/-- Models `Math.ceil(a / d)` for an integer `a` and a positive integer `d`. -/
def mathCeilDiv (a d : Int) : Int := -((-a) / d)

/-- Models `Math.max(x, ...xs)` on a non-empty argument list. -/
def mathMax (x : Int) (xs : List Int) : Int := xs.foldl max x

/-- Models `String.prototype.toLowerCase`, on the ASCII letters. -/
def toLowerCase (s : String) : String := ⟨s.data.map Char.toLower⟩

/-- Whether `q` occurs at the front of `s`, as character lists. -/
def startsWithChars : List Char → List Char → Bool
  | _, [] => true
  | [], _ :: _ => false
  | c :: s, d :: q => c == d && startsWithChars s q

/-- Whether `q` occurs somewhere in `s`, as character lists. -/
def includesChars : List Char → List Char → Bool
  | [], q => startsWithChars [] q
  | c :: s, q => startsWithChars (c :: s) q || includesChars s q

/-- Models `String.prototype.includes`. -/
def includes (s q : String) : Bool := includesChars s.data q.data

/-- Models `Array.prototype.filter` with a callback that may throw: the callback is
run on every element from left to right and the first exception aborts the
whole call. -/
def filterE {α : Type} (f : α → Except JsError Bool) : List α → Except JsError (List α)
  | [] => .ok []
  | x :: xs =>
    match f x with
    | .error e => .error e
    | .ok b =>
      match filterE f xs with
      | .error e => .error e
      | .ok r => .ok (if b then x :: r else r)

/-- Models `Array.prototype.slice(start, end)` with JavaScript's treatment of
negative and out-of-range indices. -/
def jsSlice {α : Type} (l : List α) (start stop : Int) : List α :=
  let len : Int := l.length
  let k : Int := if start < 0 then max (len + start) 0 else min start len
  let final : Int := if stop < 0 then max (len + stop) 0 else min stop len
  (l.drop k.toNat).take (max (final - k) 0).toNat

/-- Models `a || b` on numbers: `a` when it is present and non-zero, otherwise `b`. -/
def numOr (a : Option Int) (b : Int) : Int :=
  match a with
  | some v => if v ≠ 0 then v else b
  | none => b

/-- Models `a || b` on strings: `a` when it is present and non-empty, otherwise `b`. -/
def strOr (a : Option String) (b : String) : String :=
  match a with
  | some v => if v ≠ "" then v else b
  | none => b

/-! ## ProductPage: data model -/

namespace ProductPage

/-- An element of the `products` state, as stored by `loadData`: the loader
always supplies `category_name`, `simulatedRating` and `unit`; `name` is
whatever the server sent (`none` when it is not a string). -/
structure Product where
  id : Int
  name : Option String
  price : Int
  category_name : String
  image : String
  simulatedRating : Int
  unit : String
deriving DecidableEq, Repr

/-- The `priceRange` object of the filter state. -/
structure PriceRange where
  min : Int
  max : Int
deriving DecidableEq, Repr

/-- The `filters` state. -/
structure Filters where
  categories : List String
  priceRange : Option PriceRange
  minRating : Int
  searchQuery : String
deriving DecidableEq, Repr

/-- Page size constant. -/
def ITEMS_PER_PAGE : Int := 12

/-- The `maxPrice` memo: `Math.ceil(Math.max(...prices) / 100000) * 100000`
for a non-empty collection, `10000000` otherwise. -/
def maxPrice : List Product → Int
  | [] => 10000000
  | p :: ps => mathCeilDiv (mathMax p.price (ps.map Product.price)) 100000 * 100000

/-- Callback of the search filter:
`product.name.toLowerCase().includes(query) ||
 (product.category_name && product.category_name.toLowerCase().includes(query))`.
Reading `toLowerCase` off a missing name throws. -/
def searchCallback (query : String) (product : Product) : Except JsError Bool :=
  match product.name with
  | none => .error (.typeError "Cannot read properties of undefined (reading toLowerCase)")
  | some name =>
    .ok (includes (toLowerCase name) query ||
      (product.category_name != "" && includes (toLowerCase product.category_name) query))

/-- The body of the filter effect up to the value handed to
`setFilteredProducts`. -/
def computeFiltered (products : List Product) (filters : Filters) (maxPrice : Int) :
    Except JsError (List Product) :=
  -- search filter
  let afterSearch : Except JsError (List Product) :=
    if filters.searchQuery ≠ "" then
      filterE (searchCallback (toLowerCase filters.searchQuery)) products
    else .ok products
  match afterSearch with
  | .error e => .error e
  | .ok filtered =>
    -- category filter
    let filtered :=
      if filters.categories.length > 0 then
        filtered.filter (fun product => filters.categories.contains product.category_name)
      else filtered
    -- price range filter
    let filtered :=
      match filters.priceRange with
      | some priceRange =>
        if priceRange.max < maxPrice then
          filtered.filter (fun product => product.price ≤ priceRange.max)
        else filtered
      | none => filtered
    -- rating filter
    let filtered :=
      if filters.minRating > 0 then
        filtered.filter (fun product => product.simulatedRating ≥ filters.minRating)
      else filtered
    .ok filtered

/-- The search predicate as a plain Boolean: the value the search callback
returns on a product that has a name, and `false` on one that has none. -/
def searchMatches (query : String) (product : Product) : Bool :=
  match product.name with
  | none => false
  | some name =>
    includes (toLowerCase name) query ||
      (product.category_name != "" && includes (toLowerCase product.category_name) query)

/-- The AND-combination of the four filter predicates, each one passing
trivially when its filter is inactive. -/
def passesFilters (filters : Filters) (maxPrice : Int) (product : Product) : Bool :=
  (decide (filters.searchQuery = "") ||
      searchMatches (toLowerCase filters.searchQuery) product) &&
    ((decide (filters.categories.length = 0) ||
        filters.categories.contains product.category_name) &&
      ((match filters.priceRange with
          | some priceRange =>
            !decide (priceRange.max < maxPrice) || decide (product.price ≤ priceRange.max)
          | none => true) &&
        (decide (filters.minRating ≤ 0) ||
          decide (product.simulatedRating ≥ filters.minRating))))

/-- The component state read and written by the filter effect and by the
pagination logic. -/
structure PageState where
  products : List Product
  filteredProducts : List Product
  currentPage : Int
  filters : Filters
deriving DecidableEq, Repr

/-- The filter effect: computes the filtered collection from `products`,
`filters` and the `maxPrice` memo, then calls `setFilteredProducts(filtered)`
and `setCurrentPage(1)`. An exception thrown by a callback leaves the effect
before either setter runs. -/
def filterEffect (s : PageState) : Except JsError PageState :=
  match computeFiltered s.products s.filters (maxPrice s.products) with
  | .error e => .error e
  | .ok filtered => .ok { s with filteredProducts := filtered, currentPage := 1 }

/-- The component state once the filter effect has run: the state it wrote, or
the unchanged state when an exception left the effect before its setters. -/
def afterFilterEffect (s : PageState) : PageState :=
  match filterEffect s with
  | .ok s' => s'
  | .error _ => s

/-- The filter as a function of the collection alone, with `maxPrice` derived
from the collection being filtered. -/
def applyFilters (products : List Product) (filters : Filters) :
    Except JsError (List Product) :=
  computeFiltered products filters (maxPrice products)

/-- Embeds `totalPages = Math.ceil(filteredProducts.length / ITEMS_PER_PAGE)`. -/
def totalPages (filteredProducts : List Product) : Int :=
  mathCeilDiv filteredProducts.length ITEMS_PER_PAGE

/-- Embeds `startIndex = (currentPage - 1) * ITEMS_PER_PAGE`. -/
def startIndex (currentPage : Int) : Int := (currentPage - 1) * ITEMS_PER_PAGE

/-- Embeds `paginatedProducts = filteredProducts.slice(startIndex, startIndex + ITEMS_PER_PAGE)`. -/
def paginatedProducts (filteredProducts : List Product) (currentPage : Int) : List Product :=
  jsSlice filteredProducts (startIndex currentPage) (startIndex currentPage + ITEMS_PER_PAGE)

end ProductPage

/-! ## Effects of the asynchronous handlers -/

/-- An observable action of a handler. -/
inductive Effect where
  /-- Effect `setNotification` with the new notification state. -/
  | setNotification (isVisible : Bool) (message : String)
  /-- Effect `setTimeout(() => navigate(path), delay)`. -/
  | setTimeoutNavigate (path : String) (delay : Nat)
  /-- Effect `navigate(path)`. -/
  | navigate (path : String)
  /-- Effect `cartService.addToCart(productId, quantity, token)`. -/
  | addToCart (productId : Int) (quantity : Int) (token : Option String)
  /-- Effect `window.dispatchEvent(new Event(type))`. -/
  | dispatchEvent (type : String)
  /-- Effect `console.error(label, err)`. -/
  | consoleError (label : String)
  /-- Effect `console.log(label, value)`. -/
  | consoleLog (label : String)
  /-- Effect `cartService.getCart(token)`. -/
  | getCart (token : Option String)
  /-- Effect `cartService.getCartCount(token)`. -/
  | getCartCount (token : Option String)
  /-- Effect `cartService.updateCartItem(productId, quantity, token)`. -/
  | updateCartItem (productId : Int) (quantity : Int) (token : Option String)
  /-- Effect `cartService.removeFromCart(productId, token)`. -/
  | removeFromCart (productId : Int) (token : Option String)
  /-- Effect `loadCart()`: the page starts a re-fetch of its cart. -/
  | loadCart
  /-- Effect `alert(message)`. -/
  | alert (message : String)
  /-- Effect `setRemovingItem(productId)`, `none` standing for `null`. -/
  | setRemovingItem (productId : Option Int)
  /-- Effect `fetch` of `POST /order/place` with the bearer token. -/
  | placeOrder (token : Option String)
  /-- Effect `setProcessing(value)`. -/
  | setProcessing (value : Bool)
  /-- Effect `setCartData(null)`. -/
  | clearCartData
deriving DecidableEq, Repr

/-- The `success` and `message` fields of a service response. -/
structure ServiceResponse where
  success : Bool
  message : Option String
deriving DecidableEq, Repr

/-- How an awaited service call ends: the promise resolves with a response or
rejects with an error carrying `message`. -/
inductive ServiceOutcome where
  | resolved (response : ServiceResponse)
  | rejected (message : Option String)
deriving DecidableEq, Repr

/-- Whether an effect is a call of `cartService.addToCart`. -/
def Effect.isAddToCart : Effect → Bool
  | .addToCart _ _ _ => true
  | _ => false

/-- Number of `cartUpdated` events dispatched in a trace. -/
def cartUpdatedCount (trace : List Effect) : Nat :=
  trace.count (Effect.dispatchEvent "cartUpdated")

/-- Models `!token` for the value read from `localStorage`: the token is absent
or the empty string. -/
def tokenMissing (token : Option String) : Bool :=
  match token with
  | none => true
  | some t => t == ""

namespace ProductPage

/-- The add-to-cart handler of `ProductPage.jsx`. -/
def handleAddToCart (isAuthenticated : Bool) (token : Option String)
    (outcome : ServiceOutcome) (product : Option Product) : List Effect :=
  if !isAuthenticated then
    [ .setNotification true "Please log in first to add items to your cart.",
      .setTimeoutNavigate "/login" 1000 ]
  else
    match product with
    | none => []
    | some product =>
      if product.id = 0 then []
      else
        let quantity : Int := 1
        let itemUnit := strOr (some product.unit) "Unit"
        .addToCart product.id quantity token ::
          match outcome with
          | .resolved response =>
            if response.success then
              [ .setNotification true
                  (strOr response.message
                    ("1 " ++ itemUnit ++ " " ++ product.name.getD "undefined" ++
                      " successfully added to cart!")),
                .dispatchEvent "cartUpdated" ]
            else
              [ .setNotification true (strOr response.message "Failed to add item to cart.") ]
          | .rejected _ =>
            [ .consoleError "Error adding to cart:",
              .setNotification true "Network or server error. Failed to add item to cart." ]

end ProductPage

/-! ## Home -/

namespace Home

/-- An element of the `products` state of the home page. -/
structure Product where
  id : Int
  name : Option String
  unit : String
deriving DecidableEq, Repr

/-- The add-to-cart handler of `Home.jsx`. Reading `product.id` off a missing
product throws inside the `try` block and is handled by its `catch`. -/
def handleAddToCart (isAuthenticated : Bool) (token : Option String)
    (outcome : ServiceOutcome) (product : Option Product) : List Effect :=
  if !isAuthenticated then
    [ .setNotification true "Please log in first to add items to your cart.",
      .setTimeoutNavigate "/login" 1000 ]
  else
    match product with
    | none =>
      [ .consoleError "Error adding to cart:",
        .setNotification true
          (strOr (some "Cannot read properties of undefined (reading id)")
            "Failed to add item to cart.") ]
    | some product =>
      .addToCart product.id 1 token ::
        match outcome with
        | .resolved response =>
          [ .setNotification true
              (strOr response.message (product.name.getD "undefined" ++ " added to cart!")),
            .dispatchEvent "cartUpdated" ]
        | .rejected message =>
          [ .consoleError "Error adding to cart:",
            .setNotification true (strOr message "Failed to add item to cart.") ]

end Home

/-! ## ViewProduct -/

namespace ViewProduct

/-- The `product` state of the detail page, as returned by the server. -/
structure Product where
  id : Int
  name : Option String
  unit : Option String
  stock : Option Int
deriving DecidableEq, Repr

/-- The add-to-cart handler of `ViewProduct.jsx`; `product` and `quantity` are
component state. -/
def handleAddToCart (isAuthenticated : Bool) (token : Option String)
    (outcome : ServiceOutcome) (product : Option Product) (quantity : Int) : List Effect :=
  if !isAuthenticated then
    [ .setNotification true "Please log in first to add items to your cart.",
      .setTimeoutNavigate "/login" 1000 ]
  else
    match product with
    | none => []
    | some product =>
      let productId := product.id
      let itemUnit := strOr product.unit "Unit"
      .addToCart productId quantity token ::
        match outcome with
        | .resolved response =>
          if response.success then
            [ .setNotification true
                (strOr response.message
                  (toString quantity ++ " " ++ itemUnit ++ " " ++
                    product.name.getD "undefined" ++ " successfully added to cart!")),
              .dispatchEvent "cartUpdated" ]
          else
            [ .setNotification true (strOr response.message "Failed to add item to cart.") ]
        | .rejected _ =>
          [ .consoleError "Error adding to cart:",
            .setNotification true "Network or server error. Failed to add item to cart." ]

/-- The buy-now handler of `ViewProduct.jsx`: after its own authentication
check it awaits `handleAddToCart()` and then navigates to the cart. -/
def handleBuyNow (isAuthenticated : Bool) (token : Option String)
    (outcome : ServiceOutcome) (product : Option Product) (quantity : Int) : List Effect :=
  if !isAuthenticated then
    [ .setNotification true "Please log in first to proceed to checkout.",
      .setTimeoutNavigate "/login" 1000 ]
  else
    handleAddToCart isAuthenticated token outcome product quantity ++ [ .navigate "/cart" ]

end ViewProduct

/-! ## Cart data shared by the Cart and Checkout pages -/

/-- The nested `product` object of a server cart item. -/
structure CartProduct where
  name : Option String
  image : Option String
  unit : Option String
  price : Option Int
  weight : Option Int
deriving DecidableEq, Repr

/-- An element of `cart.items` in the server response. -/
structure ServerCartItem where
  product_id : Int
  quantity : Int
  price_at_addition : Option Int
  product : Option CartProduct
deriving DecidableEq, Repr

/-- The `cart` object of the server response, held in the `cartData` state. -/
structure CartData where
  items : Option (List ServerCartItem)
  total_price : Option Int
deriving DecidableEq, Repr

/-! ## Cart page -/

namespace Cart

/-- An element of the derived `cartItems` array of `Cart.jsx`. -/
structure Item where
  product_id : Int
  name : String
  price : Int
  quantity : Int
  image : Option String
  unit : String
deriving DecidableEq, Repr

/-- Embeds `cartData?.items?.map(item => (...)) || []` of `Cart.jsx`. -/
def cartItems (cartData : Option CartData) : List Item :=
  match cartData.bind CartData.items with
  | some items =>
    items.map fun item =>
      { product_id := item.product_id
        name := strOr (item.product.bind CartProduct.name) "Unknown Product"
        price := numOr item.price_at_addition 0
        quantity := item.quantity
        image := item.product.bind CartProduct.image
        unit := strOr (item.product.bind CartProduct.unit) "Unit" }
  | none => []

/-- Embeds `cartData?.total_price || cartItems.reduce((acc, item) => acc +
(item.price * item.quantity), 0)`. -/
def subtotal (cartData : Option CartData) : Int :=
  numOr (cartData.bind CartData.total_price)
    ((cartItems cartData).foldl (fun acc item => acc + item.price * item.quantity) 0)

/-- Embeds `const total = subtotal`. -/
def total (cartData : Option CartData) : Int := subtotal cartData

end Cart

/-! ## Checkout page -/

namespace Checkout

/-- An element of the derived `cartItems` array of `Checkout.jsx`. -/
structure Item where
  product_id : Int
  name : String
  price : Int
  quantity : Int
  image : Option String
  unit : String
  weight : Int
deriving DecidableEq, Repr

/-- Embeds `cartData?.items?.map(item => (...)) || []` of `Checkout.jsx`. -/
def cartItems (cartData : Option CartData) : List Item :=
  match cartData.bind CartData.items with
  | some items =>
    items.map fun item =>
      { product_id := item.product_id
        name := strOr (item.product.bind CartProduct.name) "Unknown Product"
        price := numOr item.price_at_addition (numOr (item.product.bind CartProduct.price) 0)
        quantity := item.quantity
        image := item.product.bind CartProduct.image
        unit := strOr (item.product.bind CartProduct.unit) "Unit"
        weight := numOr (item.product.bind CartProduct.weight) 0 }
  | none => []

/-- The string-keyed properties that every object literal inherits from
`Object.prototype`. -/
def objectPrototypeKeys : List String :=
  [ "constructor", "__defineGetter__", "__defineSetter__", "hasOwnProperty",
    "__lookupGetter__", "__lookupSetter__", "isPrototypeOf", "propertyIsEnumerable",
    "toString", "valueOf", "__proto__", "toLocaleString" ]

/-- What a property lookup on the `shippingCosts` object literal evaluates to. -/
inductive Lookup where
  /-- An own property of the literal. -/
  | number (n : Int)
  /-- The function (for `__proto__`, the object) inherited from
  `Object.prototype` under `name`. -/
  | inherited (name : String)
  /-- No property of that name. -/
  | undefined
deriving DecidableEq, Repr

/-- What `shippingCosts[shippingMethod] || 0` evaluates to: a number, or the
truthy value inherited under `name`. -/
inductive Cost where
  | number (n : Int)
  | inherited (name : String)
deriving DecidableEq, Repr

/-- What `subtotal + shippingCost` evaluates to: a number, or the string that `+`
builds from the subtotal and the value inherited under `name`. -/
inductive Total where
  | number (n : Int)
  | concat (subtotal : Int) (name : String)
deriving DecidableEq, Repr

/-- The lookup `shippingCosts[shippingMethod]` on the object literal with the
own properties `standard`, `express` and `same_day`: own properties first, then
the prototype chain. -/
def shippingCosts (shippingMethod : String) : Lookup :=
  if shippingMethod = "standard" then .number 15000
  else if shippingMethod = "express" then .number 35000
  else if shippingMethod = "same_day" then .number 75000
  else if shippingMethod ∈ objectPrototypeKeys then .inherited shippingMethod
  else .undefined

/-- Embeds the `subtotal` constant of `Checkout.jsx`. -/
def subtotal (cartData : Option CartData) : Int :=
  numOr (cartData.bind CartData.total_price)
    ((cartItems cartData).foldl (fun acc item => acc + item.price * item.quantity) 0)

/-- Embeds `shippingCosts[shippingMethod] || 0`: a non-zero number and an
inherited function are truthy and returned as they are. -/
def shippingCost (shippingMethod : String) : Cost :=
  match shippingCosts shippingMethod with
  | .number n => if n ≠ 0 then .number n else .number 0
  | .inherited name => .inherited name
  | .undefined => .number 0

/-- Embeds `const total = subtotal + shippingCost`: addition of numbers, string
concatenation when the cost is not a number. -/
def total (cartData : Option CartData) (shippingMethod : String) : Total :=
  match shippingCost shippingMethod with
  | .number cost => .number (subtotal cartData + cost)
  | .inherited name => .concat (subtotal cartData) name

end Checkout

/-! ## ProductPage: product loader and page navigation -/

/-- Models `String.prototype.toUpperCase`, on the ASCII letters. -/
def toUpperCase (s : String) : String := ⟨s.data.map Char.toUpper⟩

namespace ProductPage

/-- An element of `productsResponse.products`, as sent by the server. -/
structure RawProduct where
  id : Int
  name : Option String
  price : Int
  category_name : Option String
  image : Option String
  unit : Option String
deriving DecidableEq, Repr

/-- The response of `apiService.getProducts()`; `products` is `none` when the
field is not an array. -/
structure ProductsResponse where
  success : Bool
  products : Option (List RawProduct)
  error : Option String
deriving DecidableEq, Repr

/-- How the awaited `apiService.getProducts()` ends. -/
inductive ProductsOutcome where
  | resolved (response : ProductsResponse)
  | rejected
deriving DecidableEq, Repr

/-- Callback of the loader's filter, `p => p.image`: the image is present and
non-empty. -/
def hasImage (p : RawProduct) : Bool :=
  match p.image with
  | some image => image != ""
  | none => false

/-- Callback of the loader's map: copies the product, upper-cases the category
name (`OTHER` when there is none), adds the simulated rating
`Math.max(1, (p.id % 5) + 1 - 1)` and defaults the unit. -/
def loadProduct (p : RawProduct) : Product :=
  { id := p.id
    name := p.name
    price := p.price
    category_name :=
      match p.category_name with
      | some c => if c ≠ "" then toUpperCase c else "OTHER"
      | none => "OTHER"
    image := p.image.getD ""
    simulatedRating := max 1 (Int.tmod p.id 5 + 1 - 1)
    unit := strOr p.unit "Unit" }

/-- The `validProducts` array built by `loadData`. -/
def validProducts (products : List RawProduct) : List Product :=
  (products.filter hasImage).map loadProduct

/-- The state written by `loadData`. -/
structure LoadState where
  products : List Product
  loading : Bool
  error : String
deriving DecidableEq, Repr

/-- The `loadData` function of the data-fetching effect, from the state before
the call to the state after its `finally` block. -/
def loadData (outcome : ProductsOutcome) (s : LoadState) : LoadState :=
  let s := { s with loading := true, error := "" }
  let s :=
    match outcome with
    | .resolved response =>
      match response.success, response.products with
      | true, some products => { s with products := validProducts products }
      | _, _ =>
        match response.error with
        | some e => if e ≠ "" then { s with error := "Products: " ++ e } else s
        | none => s
    | .rejected =>
      { s with
        error := "Error connecting to server. Please ensure the backend is running on port 8080." }
  { s with loading := false }

/-- The initial value of the `filters` state: no filter applied. -/
def initialFilters : Filters :=
  { categories := [], priceRange := none, minRating := 0, searchQuery := "" }

/-- The filtered collection the page displays after `loadData` has handled
`outcome` on a freshly mounted page with no filter applied. -/
def displayedAfterLoad (outcome : ProductsOutcome) : Except JsError (List Product) :=
  let loaded := loadData outcome { products := [], loading := true, error := "" }
  match filterEffect
      { products := loaded.products, filteredProducts := [], currentPage := 1,
        filters := initialFilters } with
  | .error e => .error e
  | .ok s => .ok s.filteredProducts

/-- The page-change handler: `setCurrentPage(page)` when
`page > 0 && page <= totalPages`, nothing otherwise. -/
def handlePageChange (s : PageState) (page : Int) : PageState :=
  if page > 0 ∧ page ≤ totalPages s.filteredProducts then { s with currentPage := page }
  else s

end ProductPage

/-! ## Navbar: cart count -/

namespace Navbar

/-- The response of `cartService.getCartCount`; `count` is `none` when the field
is not a number. -/
structure CartCountResponse where
  success : Bool
  count : Option Int
deriving DecidableEq, Repr

/-- How the awaited `cartService.getCartCount(token)` ends. -/
inductive CartCountOutcome where
  | resolved (response : CartCountResponse)
  | rejected
deriving DecidableEq, Repr

/-- The result of one run of a Navbar callback: the `cartCount` state after it
and the effects it performed. -/
structure Result where
  cartCount : Int
  trace : List Effect
deriving DecidableEq, Repr

/-- The `fetchCartCount` callback of `Navbar.jsx`. -/
def fetchCartCount (isAuthenticated : Bool) (token : Option String)
    (outcome : CartCountOutcome) (cartCount : Int) : Result :=
  if !isAuthenticated then { cartCount := 0, trace := [] }
  else if tokenMissing token then { cartCount := 0, trace := [] }
  else
    match outcome with
    | .resolved response =>
      match response.success, response.count with
      | true, some count => { cartCount := count, trace := [.getCartCount token] }
      | _, _ => { cartCount := cartCount, trace := [.getCartCount token] }
    | .rejected =>
      { cartCount := 0,
        trace := [.getCartCount token, .consoleError "Failed to fetch cart count:"] }

/-- The `handleCartUpdate` listener: one call of `fetchCartCount`. -/
def handleCartUpdate (isAuthenticated : Bool) (token : Option String)
    (outcome : CartCountOutcome) (cartCount : Int) : Result :=
  fetchCartCount isAuthenticated token outcome cartCount

/-- Delivery of a window event to the mounted Navbar, which listens for
`scroll` (no effect on the cart count) and for `cartUpdated`. -/
def receiveEvent (type : String) (isAuthenticated : Bool) (token : Option String)
    (outcome : CartCountOutcome) (cartCount : Int) : Result :=
  if type = "cartUpdated" then handleCartUpdate isAuthenticated token outcome cartCount
  else { cartCount := cartCount, trace := [] }

/-- A run of `cartUpdated` signals, each with the outcome of the fetch it
starts, delivered one after the other; the traces are concatenated. -/
def receiveCartUpdates (isAuthenticated : Bool) (token : Option String) :
    List CartCountOutcome → Int → Result
  | [], cartCount => { cartCount := cartCount, trace := [] }
  | outcome :: rest, cartCount =>
    let first := receiveEvent "cartUpdated" isAuthenticated token outcome cartCount
    let later := receiveCartUpdates isAuthenticated token rest first.cartCount
    { cartCount := later.cartCount, trace := first.trace ++ later.trace }

end Navbar

/-! ## Cart and Checkout pages: loading the cart -/

/-- The response of `cartService.getCart`. -/
structure GetCartResponse where
  success : Bool
  message : Option String
  cart : Option CartData
deriving DecidableEq, Repr

/-- How the awaited `cartService.getCart(token)` ends; `resolved none` is a
promise resolved with `undefined`. -/
inductive GetCartOutcome where
  | resolved (response : Option GetCartResponse)
  | rejected
deriving DecidableEq, Repr

/-- The `cartData`, `loading` and `error` states of the Cart and Checkout
pages. -/
structure CartPageState where
  cartData : Option CartData
  loading : Bool
  error : String
deriving DecidableEq, Repr

/-- What a run of `loadCart` leaves behind: the page state and the effects. -/
structure LoadCartResult where
  state : CartPageState
  trace : List Effect
deriving DecidableEq, Repr

/-- What a `try` block leaves behind: the state and effects up to the point
where it was left, and the exception that left it, if any. -/
structure TryResult where
  state : CartPageState
  trace : List Effect
  thrown : Option JsError
deriving DecidableEq, Repr

/-- The view a page renders. -/
inductive View where
  | loading
  | error
  | empty
  | ready
deriving DecidableEq, Repr

namespace Cart

/-- The `try` block of `loadCart` in `Cart.jsx`. -/
def loadCartTry (token : Option String) (outcome : GetCartOutcome) (s : CartPageState) :
    TryResult :=
  match outcome with
  | .rejected => { state := s, trace := [.getCart token], thrown := some .rejectedPromise }
  | .resolved none =>
    { state := s, trace := [.getCart token, .consoleLog "Cart Response:"],
      thrown := some (.typeError "Cannot read properties of undefined (reading success)") }
  | .resolved (some response) =>
    if response.success then
      { state := { s with cartData := response.cart },
        trace := [.getCart token, .consoleLog "Cart Response:"], thrown := none }
    else
      { state :=
          { s with
            error := strOr response.message "Failed to load cart data from server.",
            cartData := none },
        trace := [.getCart token, .consoleLog "Cart Response:"], thrown := none }

/-- The `loadCart` callback of `Cart.jsx`, from the state before the call to the
state after it has settled. -/
def loadCart (isAuthenticated : Bool) (token : Option String) (outcome : GetCartOutcome)
    (s : CartPageState) : LoadCartResult :=
  let s := { s with loading := true, error := "" }
  if !isAuthenticated || tokenMissing token then
    let s := { s with loading := false }
    if !isAuthenticated then
      { state := { s with error := "Please log in to view your cart." },
        trace := [.setTimeoutNavigate "/login" 1500] }
    else { state := s, trace := [] }
  else
    let attempt := loadCartTry token outcome s
    -- catch
    let caught : LoadCartResult :=
      match attempt.thrown with
      | some _ =>
        { state :=
            { attempt.state with
              error :=
                "Failed to connect to server or session expired. Please log in again." },
          trace := attempt.trace ++ [.consoleError "Error loading cart:"] }
      | none => { state := attempt.state, trace := attempt.trace }
    -- finally
    { state := { caught.state with loading := false }, trace := caught.trace }

/-- The view chosen by the early returns of the Cart component. -/
def view (s : CartPageState) : View :=
  if s.loading then .loading
  else if s.error ≠ "" then .error
  else if (cartItems s.cartData).length = 0 then .empty
  else .ready

/-- The `updateQuantity` callback of `Cart.jsx`. -/
def updateQuantity (token : Option String) (outcome : ServiceOutcome)
    (productId newQuantity : Int) : List Effect :=
  let quantity := max 1 newQuantity
  if tokenMissing token then
    [ .alert "Session expired. Please log in.", .navigate "/login" ]
  else
    .updateCartItem productId quantity token ::
      match outcome with
      | .resolved response =>
        if response.success then [ .loadCart, .dispatchEvent "cartUpdated" ]
        else
          [ .alert
              (strOr response.message
                "Failed to update quantity. Please check product stock.") ]
      | .rejected _ =>
        [ .consoleError "Error updating quantity:",
          .alert "Failed to update quantity. Please check server connection." ]

/-- The `removeItem` callback of `Cart.jsx`; `confirmed` is the answer to
`window.confirm`. -/
def removeItem (confirmed : Bool) (token : Option String) (outcome : ServiceOutcome)
    (productId : Int) : List Effect :=
  if !confirmed then []
  else
    .setRemovingItem (some productId) ::
      if tokenMissing token then
        [ .alert "Session expired. Please log in.", .navigate "/login", .setRemovingItem none ]
      else
        .removeFromCart productId token ::
          (match outcome with
            | .resolved response =>
              if response.success then
                [ .alert "Item removed successfully!", .loadCart,
                  .dispatchEvent "cartUpdated" ]
              else [ .alert (strOr response.message "Failed to remove item.") ]
            | .rejected _ =>
              [ .consoleError "Error removing item:",
                .alert "Failed to remove item. Please check server connection." ]) ++
            [ .setRemovingItem none ]

end Cart

namespace Checkout

/-- The `try` block of `loadCart` in `Checkout.jsx`. Reading `items` off a
missing `response.cart` throws after `setCartData` has run. -/
def loadCartTry (token : Option String) (outcome : GetCartOutcome) (s : CartPageState) :
    TryResult :=
  match outcome with
  | .rejected => { state := s, trace := [.getCart token], thrown := some .rejectedPromise }
  | .resolved none =>
    { state := s, trace := [.getCart token],
      thrown := some (.typeError "Cannot read properties of undefined (reading success)") }
  | .resolved (some response) =>
    if response.success then
      let s := { s with cartData := response.cart }
      match response.cart with
      | none =>
        { state := s, trace := [.getCart token],
          thrown := some (.typeError "Cannot read properties of undefined (reading items)") }
      | some cart =>
        if cart.items.isNone || (cart.items.getD []).length = 0 then
          { state := { s with error := "Your cart is empty. Redirecting to shop." },
            trace := [.getCart token, .setTimeoutNavigate "/shop" 1500], thrown := none }
        else { state := s, trace := [.getCart token], thrown := none }
    else
      { state :=
          { s with
            error := strOr response.message "Failed to load cart data from server.",
            cartData := none },
        trace := [.getCart token], thrown := none }

/-- The `loadCart` callback of `Checkout.jsx`, from the state before the call to
the state after it has settled. -/
def loadCart (isAuthenticated : Bool) (token : Option String) (outcome : GetCartOutcome)
    (s : CartPageState) : LoadCartResult :=
  let s := { s with loading := true, error := "" }
  if !isAuthenticated || tokenMissing token then
    let s := { s with loading := false }
    if !isAuthenticated then
      { state := { s with error := "Please log in to proceed to checkout." },
        trace := [.setTimeoutNavigate "/login" 1500] }
    else { state := s, trace := [] }
  else
    let attempt := loadCartTry token outcome s
    -- catch
    let caught : LoadCartResult :=
      match attempt.thrown with
      | some _ =>
        { state :=
            { attempt.state with error := "Failed to connect to server. Please try again." },
          trace := attempt.trace ++ [.consoleError "Error loading cart:"] }
      | none => { state := attempt.state, trace := attempt.trace }
    -- finally
    { state := { caught.state with loading := false }, trace := caught.trace }

/-- The view chosen by the early returns of the Checkout component. -/
def view (s : CartPageState) : View :=
  if s.loading then .loading
  else if s.error ≠ "" then .error
  else if (cartItems s.cartData).length = 0 then .empty
  else .ready

end Checkout

/-! ## ProductPage: rating sidebar and page-number window -/

namespace ProductPage

/-- The rating choices offered by the filter sidebar. -/
def ratings : List Int := [5, 4, 3, 2, 1]

/-- The rating handler of the sidebar: clicking the active rating clears it,
clicking another one selects it. -/
def handleRatingChange (filters : Filters) (rating : Int) : Filters :=
  let newMinRating := if filters.minRating = rating then 0 else rating
  { filters with minRating := newMinRating }

/-- The constant `maxPagesToShow` of `Pagination`. -/
def maxPagesToShow : Int := 5

/-- The `startPage` and `endPage` computed by `Pagination`, after both
adjustments. -/
def pageWindow (currentPage totalPages : Int) : Int × Int :=
  let startPage := max 1 (currentPage - maxPagesToShow / 2)
  let endPage := min totalPages (currentPage + maxPagesToShow / 2)
  let startPage :=
    if endPage - startPage + 1 < maxPagesToShow then max 1 (endPage - maxPagesToShow + 1)
    else startPage
  let endPage :=
    if endPage - startPage + 1 < maxPagesToShow then min totalPages (startPage + maxPagesToShow - 1)
    else endPage
  (startPage, endPage)

/-- The `pageNumbers` array filled by the loop
`for (let i = startPage; i <= endPage; i++)`. -/
def pageNumbers (currentPage totalPages : Int) : List Int :=
  let window := pageWindow currentPage totalPages
  (List.range (window.2 - window.1 + 1).toNat).map (fun (i : Nat) => window.1 + (i : Int))

end ProductPage

/-! ## Cart notification -/

namespace Notification

/-- The notification of a page: whether the page (and with it the
`CartNotification` component) is mounted, the `notification` state, and the
pending timer of the component: `timer` is the time in milliseconds at which
the pending `setTimeout` fires, if one is pending. -/
structure State where
  mounted : Bool
  isVisible : Bool
  message : String
  timer : Option Nat
deriving DecidableEq, Repr

/-- The initial notification state of a mounted page. -/
def hidden : State := { mounted := true, isVisible := false, message := "", timer := none }

/-- Whether the user sees the notification: the page is mounted and
`isVisible` is true. -/
def shown (s : State) : Bool := s.mounted && s.isVisible

/-- A handler calls `setNotification` with `isVisible: true` at time `now`. The
effect of `CartNotification` depends on `[isVisible, onClose]` and `onClose` is
a stable callback, so the effect runs, and starts a 3000 ms timer, only when
`isVisible` changes from false to true. On an unmounted page the call does
nothing. -/
def trigger (now : Nat) (message : String) (s : State) : State :=
  if s.mounted then
    { s with
      isVisible := true
      message := message
      timer := if s.isVisible then s.timer else some (now + 3000) }
  else s

/-- The `closeNotification` callback; the effect cleanup clears the timer. -/
def closeNotification (s : State) : State :=
  if s.mounted then { s with isVisible := false, message := "", timer := none } else s

/-- The page is left: a navigation to another route unmounts the page and its
`CartNotification`, and the effect cleanup clears the pending timer. -/
def unmount (s : State) : State :=
  { s with mounted := false, timer := none }

/-- Time passes until `now`: a pending timer that is due fires `onClose`. -/
def advance (now : Nat) (s : State) : State :=
  match s.timer with
  | some due => if due ≤ now then closeNotification s else s
  | none => s

/-- What can happen to the notification at a given time. -/
inductive Event where
  | trigger (message : String)
  | close
  | navigate
deriving DecidableEq, Repr

/-- A run of time-stamped events in order of time: before each event the time
advances to its time stamp. -/
def run : List (Nat × Event) → State → State
  | [], s => s
  | (now, .trigger message) :: rest, s => run rest (trigger now message (advance now s))
  | (now, .close) :: rest, s => run rest (closeNotification (advance now s))
  | (now, .navigate) :: rest, s => run rest (unmount (advance now s))

/-- The state at time `t` of a run: the events up to `t` have happened and time
has advanced to `t`. -/
def stateAt (t : Nat) (events : List (Nat × Event)) (s : State) : State :=
  advance t (run (events.filter (fun e => e.1 ≤ t)) s)

/-- The notification events that the effects of a handler cause at once, the
handler running at time `now`. -/
def immediateEvents (now : Nat) : List Effect → List (Nat × Event)
  | [] => []
  | .setNotification true message :: rest => (now, .trigger message) :: immediateEvents now rest
  | .setNotification false _ :: rest => (now, .close) :: immediateEvents now rest
  | .navigate _ :: rest => (now, .navigate) :: immediateEvents now rest
  | _ :: rest => immediateEvents now rest

/-- The notification events that the effects of a handler cause later: the
navigations scheduled with `setTimeout`. -/
def delayedEvents (now : Nat) : List Effect → List (Nat × Event)
  | [] => []
  | .setTimeoutNavigate _ delay :: rest => (now + delay, .navigate) :: delayedEvents now rest
  | _ :: rest => delayedEvents now rest

/-- The notification events of a handler that runs at time `now` with the given
effects. -/
def eventsOfTrace (now : Nat) (trace : List Effect) : List (Nat × Event) :=
  immediateEvents now trace ++ delayedEvents now trace

end Notification

/-! ## ViewProduct: quantity selector -/

namespace ViewProduct

/-- The value of a decimal digit. -/
def decimalDigit (c : Char) : Option Nat :=
  if c.isDigit then some (c.toNat - 48) else none

/-- The value of a hexadecimal digit. -/
def hexDigit (c : Char) : Option Nat :=
  if c.isDigit then some (c.toNat - 48)
  else if 97 ≤ c.toNat ∧ c.toNat ≤ 102 then some (c.toNat - 87)
  else if 65 ≤ c.toNat ∧ c.toNat ≤ 70 then some (c.toNat - 55)
  else none

/-- The number written by the longest prefix of digits, `none` when the first
character is not a digit. -/
def parseDigits (radix : Nat) (digit : Char → Option Nat) :
    List Char → Option Nat → Option Nat
  | [], acc => acc
  | c :: cs, acc =>
    match digit c with
    | some d => parseDigits radix digit cs (some (acc.getD 0 * radix + d))
    | none => acc

/-- Models `parseInt(text)` without a radix: leading white space, an optional
sign, an optional `0x` prefix, then the longest prefix of digits; `none` is
`NaN`. -/
def parseInt (text : String) : Option Int :=
  let cs := text.data.dropWhile Char.isWhitespace
  let signed : Bool × List Char :=
    match cs with
    | '-' :: rest => (true, rest)
    | '+' :: rest => (false, rest)
    | _ => (false, cs)
  let magnitude : Option Nat :=
    match signed.2 with
    | '0' :: 'x' :: rest => parseDigits 16 hexDigit rest none
    | '0' :: 'X' :: rest => parseDigits 16 hexDigit rest none
    | rest => parseDigits 10 decimalDigit rest none
  magnitude.map (fun n => if signed.1 then -(n : Int) else (n : Int))

/-- Embeds `product.stock || 1`. -/
def stockLimit (product : Product) : Int := numOr product.stock 1

/-- The decrement button: `setQuantity(q => Math.max(1, q - 1))`. -/
def decrementQuantity (q : Int) : Int := max 1 (q - 1)

/-- The increment button: `setQuantity(q => Math.min(product.stock || 1, q + 1))`. -/
def incrementQuantity (product : Product) (q : Int) : Int :=
  min (stockLimit product) (q + 1)

/-- The typed input:
`setQuantity(Math.max(1, Math.min(product.stock || 1, parseInt(e.target.value) || 1)))`. -/
def handleQuantityInput (product : Product) (text : String) : Int :=
  max 1 (min (stockLimit product) (numOr (parseInt text) 1))

/-- The initial value of the `quantity` state. -/
def initialQuantity : Int := 1

end ViewProduct

/-! ## Checkout: placing the order -/

namespace Checkout

/-- The `shippingInfo` state. -/
structure ShippingInfo where
  fullName : String
  email : String
  phone : String
  address : String
  city : String
  postalCode : String
  notes : String
deriving DecidableEq, Repr

/-- The `order` object of a successful order response. -/
structure Order where
  order_number : String
  total_amount : Int
  id : Int
deriving DecidableEq, Repr

/-- The parsed body of the order response. -/
structure OrderResult where
  success : Bool
  message : Option String
  order : Option Order
deriving DecidableEq, Repr

/-- How `fetch` followed by `response.json()` ends. -/
inductive OrderOutcome where
  | resolved (result : OrderResult)
  | rejected
deriving DecidableEq, Repr

/-- The `handlePlaceOrder` handler of `Checkout.jsx`. Reading `order_number`
off a missing `result.order` throws inside the `try` block, after the cart has
been cleared and the event dispatched. -/
def handlePlaceOrder (shippingInfo : ShippingInfo) (cartData : Option CartData)
    (token : Option String) (outcome : OrderOutcome) : List Effect :=
  if shippingInfo.fullName = "" ∨ shippingInfo.email = "" ∨ shippingInfo.phone = "" ∨
      shippingInfo.address = "" ∨ shippingInfo.city = "" ∨ shippingInfo.postalCode = "" then
    [ .alert "Please fill in all required shipping information." ]
  else if (cartItems cartData).length = 0 then
    [ .alert "Your cart is empty.", .navigate "/shop" ]
  else
    [ .setProcessing true, .consoleLog "Sending order data to API:", .placeOrder token ] ++
      (match outcome with
        | .resolved result =>
          .consoleLog "Order API response:" ::
            if result.success then
              [ .clearCartData, .dispatchEvent "cartUpdated" ] ++
                match result.order with
                | some _ => [ .navigate "/ordersuccess" ]
                | none =>
                  [ .consoleError "Error placing order:",
                    .alert "Failed to place order due to a network error. Please try again." ]
            else [ .alert (strOr result.message "Failed to place order. Please try again.") ]
        | .rejected =>
          [ .consoleError "Error placing order:",
            .alert "Failed to place order due to a network error. Please try again." ]) ++
      [ .setProcessing false ]

/-- The order handler together with the listener it wakes: the Checkout page
registers `loadCart` for `cartUpdated`, so the event dispatched by
`handlePlaceOrder` starts a re-fetch on the page itself, whose `getCart` ends
with `refetch`. The effects of the re-fetch are listed after those of the
handler; those after its `await` happen once the response has arrived. -/
def placeOrderAndRefetch (isAuthenticated : Bool) (shippingInfo : ShippingInfo)
    (s : CartPageState) (token : Option String) (outcome : OrderOutcome)
    (refetch : GetCartOutcome) : List Effect :=
  let trace := handlePlaceOrder shippingInfo s.cartData token outcome
  if cartUpdatedCount trace > 0 then
    trace ++ (loadCart isAuthenticated token refetch { s with cartData := none }).trace
  else trace

end Checkout

/-! ## Home: deal countdown -/

namespace Home

/-- The `time` state of `DealCountdown`. -/
structure Time where
  hours : Int
  minutes : Int
  seconds : Int
deriving DecidableEq, Repr

/-- The state update run by the interval of `DealCountdown` every second. -/
def tick (prev : Time) : Time :=
  if prev.seconds > 0 then { prev with seconds := prev.seconds - 1 }
  else if prev.minutes > 0 then
    { hours := prev.hours, minutes := prev.minutes - 1, seconds := 59 }
  else if prev.hours > 0 then { hours := prev.hours - 1, minutes := 59, seconds := 59 }
  else prev

/-- The countdown after `n` ticks. -/
def ticks : Nat → Time → Time
  | 0, t => t
  | n + 1, t => ticks n (tick t)

/-- The time left, in seconds. -/
def totalSeconds (t : Time) : Int := t.hours * 3600 + t.minutes * 60 + t.seconds

/-- A time with non-negative hours and minutes and seconds within 0..59. -/
def Time.valid (t : Time) : Prop :=
  0 ≤ t.hours ∧ 0 ≤ t.minutes ∧ t.minutes ≤ 59 ∧ 0 ≤ t.seconds ∧ t.seconds ≤ 59

/-- The initial value of the `time` state. -/
def initialTime : Time := { hours := 12, minutes := 34, seconds := 56 }

instance (t : Time) : Decidable t.valid := by
  unfold Time.valid
  infer_instance

end Home

/-! ## Navbar: initials -/

namespace Navbar

/-- Models `String.prototype.split` with the separator `' '`, on character
lists. -/
def splitSpaces : List Char → List (List Char)
  | [] => [[]]
  | c :: cs =>
    match splitSpaces cs with
    | [] => [[]]
    | w :: ws => if c = ' ' then [] :: w :: ws else (c :: w) :: ws

/-- The `parts` array: `name.split(' ').filter(p => p.length > 0)`. -/
def nameParts (name : String) : List (List Char) :=
  (splitSpaces name.data).filter (fun p => p.length > 0)

/-- The `getInitials` helper of `Navbar.jsx`; `none` is a missing name. -/
def getInitials (name : Option String) : String :=
  match name with
  | none => "AC"
  | some name =>
    if name = "" then "AC"
    else
      match nameParts name with
      | first :: second :: _ =>
        toUpperCase ⟨first.take 1⟩ ++ toUpperCase ⟨second.take 1⟩
      | [only] => toUpperCase ⟨only.take 2⟩
      | [] => "AC"

end Navbar

/-! ## ProductPage: products without a numeric price -/

namespace ProductPage

/-- An element of the `products` state whose `price` is whatever the server sent:
`none` when it is missing or not a number (the loader only requires an image).
`Product` is the case of a numeric price. -/
structure StoredProduct where
  id : Int
  name : Option String
  price : Option Int
  category_name : String
  image : String
  simulatedRating : Int
  unit : String
deriving DecidableEq, Repr

/-- A product with a numeric price as an element of the general `products`
state. -/
def Product.toStored (p : Product) : StoredProduct :=
  { id := p.id, name := p.name, price := some p.price, category_name := p.category_name,
    image := p.image, simulatedRating := p.simulatedRating, unit := p.unit }

/-- A stored product read with a missing price as 0; inverse to
`Product.toStored` on products with a numeric price. -/
def StoredProduct.toProduct (p : StoredProduct) : Product :=
  { id := p.id, name := p.name, price := p.price.getD 0, category_name := p.category_name,
    image := p.image, simulatedRating := p.simulatedRating, unit := p.unit }

/-- The arguments of `Math.max(...products.map(p => p.price))` when all of them
are numbers, `none` when one of them is not. -/
def numericPrices : List StoredProduct → Option (List Int)
  | [] => some []
  | p :: ps =>
    match p.price, numericPrices ps with
    | some v, some vs => some (v :: vs)
    | _, _ => none

/-- The `maxPrice` memo on stored products; `none` is `NaN`, the value of
`Math.max` as soon as one price is not a number. -/
def storedMaxPrice (products : List StoredProduct) : Option Int :=
  match products with
  | [] => some 10000000
  | _ :: _ =>
    match numericPrices products with
    | some (x :: xs) => some (mathCeilDiv (mathMax x xs) 100000 * 100000)
    | _ => none

/-- The search callback on stored products. -/
def storedSearchCallback (query : String) (product : StoredProduct) : Except JsError Bool :=
  match product.name with
  | none => .error (.typeError "Cannot read properties of undefined (reading toLowerCase)")
  | some name =>
    .ok (includes (toLowerCase name) query ||
      (product.category_name != "" && includes (toLowerCase product.category_name) query))

/-- The body of the filter effect on stored products. A comparison with `NaN` is
false: the price stage is skipped when `maxPrice` is `NaN`, and a product
without a numeric price fails `product.price <= filters.priceRange.max`. -/
def computeFilteredStored (products : List StoredProduct) (filters : Filters)
    (maxPrice : Option Int) : Except JsError (List StoredProduct) :=
  -- search filter
  let afterSearch : Except JsError (List StoredProduct) :=
    if filters.searchQuery ≠ "" then
      filterE (storedSearchCallback (toLowerCase filters.searchQuery)) products
    else .ok products
  match afterSearch with
  | .error e => .error e
  | .ok filtered =>
    -- category filter
    let filtered :=
      if filters.categories.length > 0 then
        filtered.filter (fun product => filters.categories.contains product.category_name)
      else filtered
    -- price range filter
    let filtered :=
      match filters.priceRange, maxPrice with
      | some priceRange, some maxPrice =>
        if priceRange.max < maxPrice then
          filtered.filter (fun product =>
            match product.price with
            | some price => decide (price ≤ priceRange.max)
            | none => false)
        else filtered
      | _, _ => filtered
    -- rating filter
    let filtered :=
      if filters.minRating > 0 then
        filtered.filter (fun product => product.simulatedRating ≥ filters.minRating)
      else filtered
    .ok filtered

/-- The filter on stored products as a function of the collection alone, with
`maxPrice` derived from the collection being filtered. -/
def applyFiltersStored (products : List StoredProduct) (filters : Filters) :
    Except JsError (List StoredProduct) :=
  computeFilteredStored products filters (storedMaxPrice products)

end ProductPage

/-! ## Sample data -/

namespace ProductPage

/-- Three loaded products: two fruits and a vegetable. -/
def sampleProducts : List Product :=
  [ { id := 1, name := some "Apple", price := 150000, category_name := "FRUIT",
      image := "apple.png", simulatedRating := 1, unit := "Kg" },
    { id := 2, name := some "Pear", price := 50000, category_name := "FRUIT",
      image := "pear.png", simulatedRating := 2, unit := "Kg" },
    { id := 3, name := some "Carrot", price := 20000, category_name := "VEGETABLE",
      image := "carrot.png", simulatedRating := 3, unit := "Kg" } ]

/-- A filter specification with every filter type active. -/
def sampleFilters : Filters :=
  { categories := ["FRUIT"], priceRange := some { min := 0, max := 100000 },
    minRating := 2, searchQuery := "P" }

/-- A page state on page 2 of an unfiltered listing. -/
def sampleState : PageState :=
  { products := sampleProducts, filteredProducts := sampleProducts, currentPage := 2,
    filters := { categories := [], priceRange := none, minRating := 0, searchQuery := "" } }

end ProductPage

namespace ProductPage

/-- The product list of the 25-item scenario: ids 1 to 25, every product with
an image. -/
def scenarioProducts : List RawProduct :=
  (List.range 25).map fun i =>
    { id := (i : Int) + 1, name := some "Item", price := 10000, category_name := some "misc",
      image := some "item.png", unit := none }

/-- A successful product-list response holding `products`. -/
def successResponse (products : List RawProduct) : ProductsResponse :=
  { success := true, products := some products, error := none }

/-- A product as the server may send it, without an image. -/
def imagelessProduct : RawProduct :=
  { id := 26, name := some "Item", price := 10000, category_name := some "misc",
    image := none, unit := none }

end ProductPage

/-- The state of a freshly mounted Cart or Checkout page. -/
def initialCartPage : CartPageState :=
  { cartData := none, loading := true, error := "" }

/-- A cart with no items, as the server reports it. -/
def emptyCart : CartData :=
  { items := some [], total_price := some 0 }

/-- A cart whose only item has no `price_at_addition` but a product price, and
whose server total is zero. -/
def fallbackCart : CartData :=
  { items := some
      [ { product_id := 1, quantity := 1, price_at_addition := none,
          product := some
            { name := some "Tea", image := none, unit := none, price := some 5000,
              weight := none } } ],
    total_price := some 0 }

/-- A shipping form with every field filled in except the notes. -/
def completeShippingInfo : Checkout.ShippingInfo :=
  { fullName := "Ani", email := "ani@example.com", phone := "0800", address := "Jl. Satu 1",
    city := "Bandung", postalCode := "40111", notes := "" }

/-- A successful order response. -/
def orderPlaced : Checkout.OrderOutcome :=
  .resolved
    { success := true, message := none,
      order := some { order_number := "ORD-1", total_amount := 265000, id := 9 } }

namespace ProductPage

/-- A product as the server may send it, with an image but without a name. -/
def namelessProduct : RawProduct :=
  { id := 1, name := none, price := 10000, category_name := some "misc",
    image := some "item.png", unit := none }

end ProductPage

namespace ProductPage

/-- An apple priced 150,000 as a stored product. -/
def storedApple : StoredProduct :=
  { id := 1, name := some "Apple", price := some 150000, category_name := "FRUIT",
    image := "apple.png", simulatedRating := 1, unit := "Kg" }

/-- A book that the server sent without a price. -/
def storedBook : StoredProduct :=
  { id := 2, name := some "Book", price := none, category_name := "BOOKS",
    image := "book.png", simulatedRating := 2, unit := "Unit" }

/-- The search query `apple` with a price ceiling of 100,000. -/
def appleUnderCeiling : Filters :=
  { categories := [], priceRange := some { min := 0, max := 100000 }, minRating := 0,
    searchQuery := "apple" }

end ProductPage

/-- The cart of the subtotal scenario: two items priced 100,000 and 50,000 in
quantities 2 and 1, with no server total. -/
def scenarioCart : CartData :=
  { items := some
      [ { product_id := 1, quantity := 2, price_at_addition := some 100000, product := none },
        { product_id := 2, quantity := 1, price_at_addition := some 50000, product := none } ],
    total_price := none }

/-! ## Auxiliary facts about the primitives -/

theorem filterE_sublist {α : Type} (f : α → Except JsError Bool) :
    ∀ (l r : List α), filterE f l = .ok r → r.Sublist l
  | [], r, h => by
    simp only [filterE, Except.ok.injEq] at h
    subst h
    exact List.Sublist.refl _
  | x :: xs, r, h => by
    simp only [filterE] at h
    cases hx : f x with
    | error e => simp [hx] at h
    | ok b =>
      cases hxs : filterE f xs with
      | error e => simp [hx, hxs] at h
      | ok r' =>
        have ih := filterE_sublist f xs r' hxs
        simp only [hx, hxs, Except.ok.injEq] at h
        subst h
        cases b with
        | true => simpa using ih
        | false => simpa using ih.trans (List.sublist_cons_self x xs)

theorem filterE_eq_filter {α : Type} (f : α → Except JsError Bool) (g : α → Bool) :
    ∀ (l : List α), (∀ x ∈ l, f x = .ok (g x)) → filterE f l = .ok (l.filter g)
  | [], _ => rfl
  | x :: xs, h => by
    have hx : f x = .ok (g x) := h x (List.mem_cons_self x xs)
    have ih := filterE_eq_filter f g xs (fun y hy => h y (List.mem_cons_of_mem x hy))
    simp only [filterE, hx, ih, List.filter_cons]

theorem filterE_ok_callback {α : Type} (f : α → Except JsError Bool) :
    ∀ (l r : List α), filterE f l = .ok r → ∀ x ∈ l, ∃ b, f x = .ok b
  | [], _, _, x, hx => by simp at hx
  | y :: ys, r, h, x, hx => by
    simp only [filterE] at h
    cases hy : f y with
    | error e => simp [hy] at h
    | ok b =>
      cases hys : filterE f ys with
      | error e => simp [hy, hys] at h
      | ok r' =>
        rcases List.mem_cons.1 hx with rfl | hx'
        · exact ⟨b, hy⟩
        · exact filterE_ok_callback f ys r' hys x hx'

theorem ite_filter_eq {α : Type} (c : Prop) [Decidable c] (g : α → Bool) (l : List α) :
    (if c then l.filter g else l) = l.filter (fun x => !decide c || g x) := by
  by_cases h : c <;> simp [h]

namespace ProductPage

theorem searchCallback_eq_of_name (query : String) (product : Product)
    (h : product.name ≠ none) :
    searchCallback query product = .ok (searchMatches query product) := by
  unfold searchCallback searchMatches
  cases hn : product.name with
  | none => exact absurd hn h
  | some name => rfl

theorem name_of_searchCallback_ok (query : String) (product : Product) (b : Bool)
    (h : searchCallback query product = .ok b) : product.name ≠ none := by
  unfold searchCallback at h
  cases hn : product.name with
  | none => simp [hn] at h
  | some name => simp

theorem search_filter_ok (query : String) (products : List Product)
    (h : ∀ p ∈ products, p.name ≠ none) :
    filterE (searchCallback query) products = .ok (products.filter (searchMatches query)) :=
  filterE_eq_filter _ _ products (fun p hp => searchCallback_eq_of_name query p (h p hp))

theorem search_filter_names (query : String) (products r : List Product)
    (h : filterE (searchCallback query) products = .ok r) :
    ∀ p ∈ products, p.name ≠ none := by
  intro p hp
  obtain ⟨b, hb⟩ := filterE_ok_callback _ products r h p hp
  exact name_of_searchCallback_ok query p b hb

/-- The pure tail of the filter effect (category, price and rating stages)
is one filter by the conjunction of the three predicates. -/
theorem pure_stages_eq (filters : Filters) (m : Int) (S : List Product) :
    (let filtered :=
        if filters.categories.length > 0 then
          S.filter (fun product => filters.categories.contains product.category_name)
        else S
      let filtered :=
        match filters.priceRange with
        | some priceRange =>
          if priceRange.max < m then
            filtered.filter (fun product => product.price ≤ priceRange.max)
          else filtered
        | none => filtered
      let filtered :=
        if filters.minRating > 0 then
          filtered.filter (fun product => product.simulatedRating ≥ filters.minRating)
        else filtered
      filtered) =
      S.filter (fun product =>
        (decide (filters.categories.length = 0) ||
            filters.categories.contains product.category_name) &&
          ((match filters.priceRange with
              | some priceRange =>
                !decide (priceRange.max < m) || decide (product.price ≤ priceRange.max)
              | none => true) &&
            (decide (filters.minRating ≤ 0) ||
              decide (product.simulatedRating ≥ filters.minRating)))) := by
  simp only []
  rw [ite_filter_eq, ite_filter_eq]
  cases hpr : filters.priceRange with
  | none =>
    simp only [List.filter_filter]
    apply List.filter_congr
    intro x _
    rw [Bool.eq_iff_iff]
    simp only [Bool.and_eq_true, Bool.or_eq_true, Bool.not_eq_true', decide_eq_true_eq,
      decide_eq_false_iff_not, gt_iff_lt, not_lt, ge_iff_le, Nat.le_zero_eq, and_true, true_and]
    tauto
  | some pr =>
    simp only []
    rw [ite_filter_eq]
    simp only [List.filter_filter]
    apply List.filter_congr
    intro x _
    rw [Bool.eq_iff_iff]
    simp only [Bool.and_eq_true, Bool.or_eq_true, Bool.not_eq_true', decide_eq_true_eq,
      decide_eq_false_iff_not, gt_iff_lt, not_lt, ge_iff_le, Nat.le_zero_eq]
    tauto

theorem passesFilters_eq (filters : Filters) (m : Int) (S : List Product) :
    S.filter (passesFilters filters m) =
      (S.filter (fun product =>
        decide (filters.searchQuery = "") ||
          searchMatches (toLowerCase filters.searchQuery) product)).filter
        (fun product =>
          (decide (filters.categories.length = 0) ||
              filters.categories.contains product.category_name) &&
            ((match filters.priceRange with
                | some priceRange =>
                  !decide (priceRange.max < m) || decide (product.price ≤ priceRange.max)
                | none => true) &&
              (decide (filters.minRating ≤ 0) ||
                decide (product.simulatedRating ≥ filters.minRating)))) := by
  rw [List.filter_filter]
  apply List.filter_congr
  intro x _
  unfold passesFilters
  rw [Bool.and_comm]

/-- The filter effect computes a result exactly when the search stage does not
throw, and the result is then the source filtered by `passesFilters`. -/
theorem computeFiltered_ok_iff (products : List Product) (filters : Filters) (m : Int)
    (r : List Product) :
    computeFiltered products filters m = .ok r ↔
      (filters.searchQuery = "" ∨ ∀ p ∈ products, p.name ≠ none) ∧
        r = products.filter (passesFilters filters m) := by
  have hpure := pure_stages_eq filters m
  simp only [] at hpure
  rw [passesFilters_eq]
  unfold computeFiltered
  by_cases hq : filters.searchQuery = ""
  · simp only [hq, ne_eq, not_true_eq_false, if_false, true_or, true_and, Except.ok.injEq,
      decide_True, Bool.true_or, List.filter_true]
    rw [hpure]
    exact eq_comm
  · simp only [hq, ne_eq, not_false_eq_true, if_true, false_or, decide_False, Bool.false_or]
    constructor
    · intro h
      cases hs : filterE (searchCallback (toLowerCase filters.searchQuery)) products with
      | error e => simp [hs] at h
      | ok S =>
        have hn := search_filter_names _ products S hs
        have hS := search_filter_ok (toLowerCase filters.searchQuery) products hn
        rw [hs] at hS
        simp only [Except.ok.injEq] at hS
        simp only [hs, Except.ok.injEq] at h
        rw [hpure] at h
        refine ⟨hn, ?_⟩
        rw [← h, hS]
    · rintro ⟨hn, hr⟩
      rw [search_filter_ok _ products hn]
      simp only [Except.ok.injEq]
      rw [hpure, hr]

theorem mathMax_ge : ∀ (xs : List Int) (x : Int), ∀ y ∈ x :: xs, y ≤ mathMax x xs
  | [], x, y, hy => by
    simp only [List.mem_singleton] at hy
    simp [mathMax, hy]
  | z :: zs, x, y, hy => by
    have ih := mathMax_ge zs (max x z)
    have hstep : mathMax x (z :: zs) = mathMax (max x z) zs := rfl
    rw [hstep]
    rcases List.mem_cons.1 hy with rfl | hy'
    · exact le_trans (le_max_left _ _) (ih _ (List.mem_cons_self _ _))
    · rcases List.mem_cons.1 hy' with rfl | hy''
      · exact le_trans (le_max_right _ _) (ih _ (List.mem_cons_self _ _))
      · exact ih y (List.mem_cons_of_mem _ hy'')

theorem mathMax_mem : ∀ (xs : List Int) (x : Int), mathMax x xs ∈ x :: xs
  | [], x => by simp [mathMax]
  | z :: zs, x => by
    have ih := mathMax_mem zs (max x z)
    have hstep : mathMax x (z :: zs) = mathMax (max x z) zs := rfl
    rw [hstep]
    rcases List.mem_cons.1 ih with h | h
    · rw [h]
      rcases max_choice x z with hc | hc
      · rw [hc]; exact List.mem_cons_self _ _
      · rw [hc]; exact List.mem_cons_of_mem _ (List.mem_cons_self _ _)
    · exact List.mem_cons_of_mem _ (List.mem_cons_of_mem _ h)

theorem mathCeilDiv_mono (a b : Int) (h : a ≤ b) :
    mathCeilDiv a 100000 * 100000 ≤ mathCeilDiv b 100000 * 100000 := by
  unfold mathCeilDiv
  omega

theorem le_mathCeilDiv_mul (a : Int) : a ≤ mathCeilDiv a 100000 * 100000 := by
  unfold mathCeilDiv
  omega

/-- On a non-empty collection `maxPrice` is the rounded-up price of a most
expensive product. -/
theorem maxPrice_spec (l : List Product) (hne : l ≠ []) :
    ∃ p ∈ l, maxPrice l = mathCeilDiv p.price 100000 * 100000 ∧ ∀ q ∈ l, q.price ≤ p.price := by
  cases l with
  | nil => exact absurd rfl hne
  | cons a as =>
    have hmem := mathMax_mem (as.map Product.price) a.price
    have hge := mathMax_ge (as.map Product.price) a.price
    have hmem' : mathMax a.price (as.map Product.price) ∈ (a :: as).map Product.price := by
      simpa using hmem
    obtain ⟨p, hp, hpe⟩ := List.mem_map.1 hmem'
    refine ⟨p, hp, ?_, ?_⟩
    · simp only [maxPrice, hpe]
    · intro q hq
      rw [hpe]
      apply hge
      have : q.price ∈ (a :: as).map Product.price := List.mem_map.2 ⟨q, hq, rfl⟩
      simpa using this

theorem price_le_maxPrice (l : List Product) (q : Product) (hq : q ∈ l) :
    q.price ≤ maxPrice l := by
  obtain ⟨p, _, hmax, hle⟩ := maxPrice_spec l (List.ne_nil_of_mem hq)
  rw [hmax]
  exact le_trans (hle q hq) (le_mathCeilDiv_mul p.price)

theorem maxPrice_sublist (r l : List Product) (hsub : r.Sublist l) (hne : r ≠ []) :
    maxPrice r ≤ maxPrice l := by
  obtain ⟨p, hp, hmax, _⟩ := maxPrice_spec r hne
  have hpl : p ∈ l := hsub.subset hp
  obtain ⟨p', _, hmax', hle'⟩ := maxPrice_spec l (List.ne_nil_of_mem hpl)
  rw [hmax, hmax']
  exact mathCeilDiv_mono _ _ (hle' p hpl)

theorem passesFilters_mono (filters : Filters) (m m' : Int) (p : Product) (hm : m' ≤ m)
    (h : passesFilters filters m p = true) : passesFilters filters m' p = true := by
  unfold passesFilters at h ⊢
  cases hpr : filters.priceRange with
  | none => simpa [hpr] using h
  | some pr =>
    simp only [hpr, Bool.and_eq_true, Bool.or_eq_true, Bool.not_eq_true', decide_eq_true_eq,
      decide_eq_false_iff_not] at h ⊢
    refine ⟨h.1, h.2.1, ?_, h.2.2.2⟩
    rcases h.2.2.1 with h1 | h1
    · left; omega
    · right; exact h1

theorem toLowerCase_ne_empty (q : String) (hq : q ≠ "") : toLowerCase q ≠ "" := by
  intro h
  apply hq
  cases q with
  | mk data =>
    cases data with
    | nil => rfl
    | cons c cs =>
      have := congrArg String.data h
      simp [toLowerCase] at this

theorem includes_empty_left (q : String) (hq : q ≠ "") : includes (toLowerCase "") q = false := by
  cases q with
  | mk data =>
    cases data with
    | nil => exact absurd rfl hq
    | cons c cs => rfl

/-- The Boolean `searchMatches` says that the lower-cased name or the
lower-cased category name contains the query. -/
theorem searchMatches_iff (query : String) (hq : query ≠ "") (p : Product) :
    searchMatches query p = true ↔
      (∃ n, p.name = some n ∧ includes (toLowerCase n) query = true) ∨
        (p.name ≠ none ∧ includes (toLowerCase p.category_name) query = true) := by
  unfold searchMatches
  cases hn : p.name with
  | none => simp
  | some n =>
    simp only [Bool.or_eq_true, Bool.and_eq_true, bne_iff_ne, ne_eq, Option.some.injEq,
      exists_eq_left', not_false_eq_true, true_and, reduceCtorEq]
    constructor
    · rintro (h | ⟨_, h⟩)
      · exact Or.inl h
      · exact Or.inr h
    · rintro (h | h)
      · exact Or.inl h
      · refine Or.inr ⟨?_, h⟩
        intro hc
        rw [hc, includes_empty_left query hq] at h
        exact Bool.false_ne_true h

/-- The Boolean `passesFilters` is the conjunction of the four filter
conditions. -/
theorem passesFilters_iff (filters : Filters) (m : Int) (p : Product)
    (hname : filters.searchQuery = "" ∨ p.name ≠ none) :
    passesFilters filters m p = true ↔
      (filters.searchQuery = "" ∨
          (∃ n, p.name = some n ∧
            includes (toLowerCase n) (toLowerCase filters.searchQuery) = true) ∨
          includes (toLowerCase p.category_name) (toLowerCase filters.searchQuery) = true) ∧
        (filters.categories = [] ∨ p.category_name ∈ filters.categories) ∧
        (∀ pr, filters.priceRange = some pr → pr.max < m → p.price ≤ pr.max) ∧
        (filters.minRating ≤ 0 ∨ p.simulatedRating ≥ filters.minRating) := by
  have hsearch : (decide (filters.searchQuery = "") ||
        searchMatches (toLowerCase filters.searchQuery) p) = true ↔
      (filters.searchQuery = "" ∨
          (∃ n, p.name = some n ∧
            includes (toLowerCase n) (toLowerCase filters.searchQuery) = true) ∨
          includes (toLowerCase p.category_name) (toLowerCase filters.searchQuery) = true) := by
    by_cases hq : filters.searchQuery = ""
    · simp [hq]
    · have hn : p.name ≠ none := hname.resolve_left hq
      simp only [hq, decide_False, Bool.false_or, false_or]
      rw [searchMatches_iff _ (toLowerCase_ne_empty _ hq)]
      simp [hn]
  have hprice : (match filters.priceRange with
        | some priceRange => !decide (priceRange.max < m) || decide (p.price ≤ priceRange.max)
        | none => true) = true ↔
      (∀ pr, filters.priceRange = some pr → pr.max < m → p.price ≤ pr.max) := by
    cases hpr : filters.priceRange with
    | none => simp
    | some pr =>
      simp only [Bool.or_eq_true, Bool.not_eq_true', decide_eq_false_iff_not, decide_eq_true_eq,
        Option.some.injEq, forall_eq']
      tauto
  unfold passesFilters
  simp only [Bool.and_eq_true, hsearch, hprice]
  simp

theorem filterEffect_ok_iff (s s' : PageState) :
    filterEffect s = .ok s' ↔
      (s.filters.searchQuery = "" ∨ ∀ p ∈ s.products, p.name ≠ none) ∧
        s' = { s with
          filteredProducts := s.products.filter (passesFilters s.filters (maxPrice s.products)),
          currentPage := 1 } := by
  unfold filterEffect
  cases h : computeFiltered s.products s.filters (maxPrice s.products) with
  | error e =>
    have hno : ¬ (s.filters.searchQuery = "" ∨ ∀ p ∈ s.products, p.name ≠ none) := by
      intro hn
      have := (computeFiltered_ok_iff s.products s.filters (maxPrice s.products) _).2 ⟨hn, rfl⟩
      rw [h] at this
      cases this
    simp [hno]
  | ok r =>
    obtain ⟨hn, hr⟩ := (computeFiltered_ok_iff _ _ _ _).1 h
    simp only [Except.ok.injEq, hn, true_and, hr]
    exact eq_comm

/-! ## The filter step (C1, C3, C4) with lemmas for C2 and C7 -/

/-- C1: whenever the filter step produces a filtered collection, that collection is
a sublist of the source collection: it holds only products of the source, keeps
their relative order, and holds no product more often than the source does. The
step produces a collection whenever the search query is empty or every product
has a name. -/
theorem filtered_is_sublist_of_source (s : PageState) :
    (∀ s', filterEffect s = .ok s' →
        s'.filteredProducts.Sublist s.products ∧
          (∀ p ∈ s'.filteredProducts, p ∈ s.products) ∧
          ∀ p, s'.filteredProducts.count p ≤ s.products.count p) ∧
      ((s.filters.searchQuery = "" ∨ ∀ p ∈ s.products, p.name ≠ none) →
        ∃ s', filterEffect s = .ok s') := by
  constructor
  · intro s' h
    obtain ⟨_, hs'⟩ := (filterEffect_ok_iff s s').1 h
    have hsub : s'.filteredProducts.Sublist s.products := by
      rw [hs']
      exact List.filter_sublist _
    exact ⟨hsub, fun p hp => hsub.subset hp, fun p => hsub.count_le p⟩
  · intro hn
    exact ⟨_, (filterEffect_ok_iff s _).2 ⟨hn, rfl⟩⟩

/-- Witness for C1: the sample page state with all four filters switched on. -/
theorem filtered_is_sublist_of_source_witness :
    (∃ s', filterEffect { sampleState with filters := sampleFilters } = .ok s') ∧
      [sampleProducts.get ⟨1, by decide⟩].Sublist sampleProducts :=
  ⟨(filtered_is_sublist_of_source { sampleState with filters := sampleFilters }).2
      (Or.inr (by decide)),
    ((filtered_is_sublist_of_source { sampleState with filters := sampleFilters }).1
      { sampleState with
        filters := sampleFilters,
        filteredProducts := [sampleProducts.get ⟨1, by decide⟩],
        currentPage := 1 } rfl).1⟩

/-- On products with a numeric price, re-applying the same filter specification
to a filtered result returns that result unchanged, the price ceiling being
derived each time from the collection that is filtered; the first application
produces a result whenever the search query is empty or every product has a
name. -/
theorem applyFilters_idempotent (products : List Product) (filters : Filters) :
    (∀ r, applyFilters products filters = .ok r → applyFilters r filters = .ok r) ∧
      ((filters.searchQuery = "" ∨ ∀ p ∈ products, p.name ≠ none) →
        ∃ r, applyFilters products filters = .ok r ∧ applyFilters r filters = .ok r) := by
  have key : ∀ r, applyFilters products filters = .ok r → applyFilters r filters = .ok r := by
    intro r h
    unfold applyFilters at h ⊢
    obtain ⟨hn, hr⟩ := (computeFiltered_ok_iff _ _ _ _).1 h
    have hsub : r.Sublist products := by
      rw [hr]
      exact List.filter_sublist _
    refine (computeFiltered_ok_iff _ _ _ _).2 ⟨?_, ?_⟩
    · exact hn.imp id (fun hall p hp => hall p (hsub.subset hp))
    · symm
      rw [List.filter_eq_self]
      intro p hp
      have hpass : passesFilters filters (maxPrice products) p = true := by
        rw [hr] at hp
        exact (List.mem_filter.1 hp).2
      exact passesFilters_mono filters _ _ p
        (maxPrice_sublist r products hsub (List.ne_nil_of_mem hp)) hpass
  refine ⟨key, fun hn => ?_⟩
  have h := (computeFiltered_ok_iff products filters (maxPrice products) _).2 ⟨hn, rfl⟩
  exact ⟨_, h, key _ h⟩

/-- Example of filtering twice: the sample collection. -/
theorem applyFilters_idempotent_witness :
    applyFilters [sampleProducts.get ⟨1, by decide⟩] sampleFilters =
        .ok [sampleProducts.get ⟨1, by decide⟩] ∧
      ∃ r, applyFilters sampleProducts sampleFilters = .ok r ∧
        applyFilters r sampleFilters = .ok r :=
  ⟨(applyFilters_idempotent sampleProducts sampleFilters).1 _ rfl,
    (applyFilters_idempotent sampleProducts sampleFilters).2 (Or.inr (by decide))⟩

/-- C3: the filters are AND-combined. Whenever the filter step produces a result,
a product is in it if and only if it is in the source and passes the search
condition (query empty, or lower-cased name or lower-cased category name
contains the lower-cased query) and the category condition (no category
selected, or its category is selected) and the price condition (price filter
inactive, or price at most the range maximum) and the rating condition (minimum
rating not positive, or simulated rating at least the minimum); the result is
the source filtered by that conjunction, and it is produced whenever the query
is empty or every product has a name. -/
theorem filters_are_and_combined (products : List Product) (filters : Filters) :
    (∀ r, applyFilters products filters = .ok r →
        r = products.filter (passesFilters filters (maxPrice products)) ∧
        ∀ p, p ∈ r ↔
          p ∈ products ∧
            (filters.searchQuery = "" ∨
              (∃ n, p.name = some n ∧
                includes (toLowerCase n) (toLowerCase filters.searchQuery) = true) ∨
              includes (toLowerCase p.category_name) (toLowerCase filters.searchQuery) = true) ∧
            (filters.categories = [] ∨ p.category_name ∈ filters.categories) ∧
            (∀ pr, filters.priceRange = some pr → pr.max < maxPrice products →
              p.price ≤ pr.max) ∧
            (filters.minRating ≤ 0 ∨ p.simulatedRating ≥ filters.minRating)) ∧
      ((filters.searchQuery = "" ∨ ∀ p ∈ products, p.name ≠ none) →
        ∃ r, applyFilters products filters = .ok r) := by
  constructor
  · intro r h
    unfold applyFilters at h
    obtain ⟨hn, hr⟩ := (computeFiltered_ok_iff _ _ _ _).1 h
    refine ⟨hr, fun p => ?_⟩
    rw [hr, List.mem_filter]
    constructor
    · rintro ⟨hp, hpass⟩
      exact ⟨hp, (passesFilters_iff filters _ p (hn.imp id (fun hall => hall p hp))).1 hpass⟩
    · rintro ⟨hp, hconds⟩
      exact ⟨hp, (passesFilters_iff filters _ p (hn.imp id (fun hall => hall p hp))).2 hconds⟩
  · intro hn
    exact ⟨_, (computeFiltered_ok_iff products filters (maxPrice products) _).2 ⟨hn, rfl⟩⟩

/-- Witness for C3: the apple of the sample collection passes the search and
category filters but not the price filter, and is not in the result. -/
theorem filters_are_and_combined_witness :
    (∃ r, applyFilters sampleProducts sampleFilters = .ok r) ∧
      [sampleProducts.get ⟨1, by decide⟩] =
        sampleProducts.filter (passesFilters sampleFilters (maxPrice sampleProducts)) :=
  ⟨(filters_are_and_combined sampleProducts sampleFilters).2 (Or.inr (by decide)),
    ((filters_are_and_combined sampleProducts sampleFilters).1 _ rfl).1⟩

/-- C4: whenever a price range is set, every product of the filtered result has a
price at most the range maximum, also when the price predicate is skipped
because the range maximum is not below `maxPrice`; the result is produced
whenever the query is empty or every product has a name. -/
theorem filtered_price_le_range_max (products : List Product) (filters : Filters)
    (priceRange : PriceRange) (hset : filters.priceRange = some priceRange) :
    (∀ r, applyFilters products filters = .ok r → ∀ p ∈ r, p.price ≤ priceRange.max) ∧
      ((filters.searchQuery = "" ∨ ∀ p ∈ products, p.name ≠ none) →
        ∃ r, applyFilters products filters = .ok r ∧ ∀ p ∈ r, p.price ≤ priceRange.max) := by
  have key : ∀ r, applyFilters products filters = .ok r →
      ∀ p ∈ r, p.price ≤ priceRange.max := by
    intro r h p hp
    unfold applyFilters at h
    obtain ⟨hn, hr⟩ := (computeFiltered_ok_iff _ _ _ _).1 h
    rw [hr, List.mem_filter] at hp
    obtain ⟨hmem, hpass⟩ := hp
    have hconds := (passesFilters_iff filters _ p (hn.imp id (fun hall => hall p hmem))).1 hpass
    by_cases hlt : priceRange.max < maxPrice products
    · exact hconds.2.2.1 priceRange hset hlt
    · exact le_trans (price_le_maxPrice products p hmem) (not_lt.1 hlt)
  refine ⟨key, fun hn => ?_⟩
  have h := (computeFiltered_ok_iff products filters (maxPrice products) _).2 ⟨hn, rfl⟩
  exact ⟨_, h, key _ h⟩

/-- Witness for C4: the sample collection under a price range whose maximum
equals `maxPrice`, so that the price predicate is skipped. -/
theorem filtered_price_le_range_max_witness :
    ∃ r, applyFilters sampleProducts
          { sampleFilters with priceRange := some { min := 0, max := 200000 } } = .ok r ∧
      ∀ p ∈ r, p.price ≤ 200000 :=
  (filtered_price_le_range_max sampleProducts
      { sampleFilters with priceRange := some { min := 0, max := 200000 } }
      { min := 0, max := 200000 } rfl).2 (Or.inr (by decide))

/-- Whenever the filter effect runs after a change of the filter specification
and completes, the current page is 1 and the new specification is kept,
whatever the page was before; the effect completes whenever the new query is
empty or every product has a name. -/
theorem filter_change_resets_page (s : PageState) (newFilters : Filters) :
    (∀ s', filterEffect { s with filters := newFilters } = .ok s' →
        s'.currentPage = 1 ∧ s'.filters = newFilters) ∧
      ((newFilters.searchQuery = "" ∨ ∀ p ∈ s.products, p.name ≠ none) →
        ∃ s', filterEffect { s with filters := newFilters } = .ok s' ∧
          s'.currentPage = 1 ∧ s'.filters = newFilters) := by
  have key : ∀ s', filterEffect { s with filters := newFilters } = .ok s' →
      s'.currentPage = 1 ∧ s'.filters = newFilters := by
    intro s' h
    obtain ⟨_, hs'⟩ := (filterEffect_ok_iff _ s').1 h
    rw [hs']
    exact ⟨rfl, rfl⟩
  refine ⟨key, fun hn => ?_⟩
  have h := (filterEffect_ok_iff { s with filters := newFilters } _).2 ⟨hn, rfl⟩
  exact ⟨_, h, key _ h⟩

/-- Example of the page reset: the sample state is on page 2 when the filters
change. -/
theorem filter_change_resets_page_witness :
    sampleState.currentPage = 2 ∧
      ∃ s', filterEffect { sampleState with filters := sampleFilters } = .ok s' ∧
        s'.currentPage = 1 ∧ s'.filters = sampleFilters :=
  ⟨rfl, (filter_change_resets_page sampleState sampleFilters).2 (Or.inr (by decide))⟩

/-! ## Pagination (C5, C6) -/

theorem jsSlice_length_le {α : Type} (l : List α) (start stop : Int) (n : Nat)
    (h : stop - start ≤ n) (hn : 0 ≤ stop - start) : (jsSlice l start stop).length ≤ n := by
  unfold jsSlice
  simp only [List.length_take, List.length_drop]
  omega

/-- A page with a positive number is the block of twelve items that starts at
twelve times the number of pages before it. -/
theorem paginatedProducts_succ (l : List Product) (k : Nat) :
    paginatedProducts l ((k : Int) + 1) = (l.drop (12 * k)).take 12 := by
  unfold paginatedProducts jsSlice startIndex ITEMS_PER_PAGE
  have h1 : ¬ (((k : Int) + 1 - 1) * 12 < 0) := by omega
  have h2 : ¬ (((k : Int) + 1 - 1) * 12 + 12 < 0) := by omega
  simp only [h1, h2, if_false]
  by_cases hk : l.length ≤ 12 * k
  · rw [List.drop_eq_nil_of_le (by omega), List.drop_eq_nil_of_le hk]
    simp
  · have hk' : (min (((k : Int) + 1 - 1) * 12) (l.length : Int)).toNat = 12 * k := by omega
    rw [hk', List.take_eq_take, List.length_drop]
    omega

theorem flatMap_pages_eq_take (l : List Product) :
    ∀ n : Nat, (List.range n).flatMap (fun k => (l.drop (12 * k)).take 12) = l.take (12 * n)
  | 0 => by simp
  | n + 1 => by
    rw [List.range_succ, List.flatMap_append, flatMap_pages_eq_take l n]
    simp only [List.flatMap_cons, List.flatMap_nil, List.append_nil]
    rw [show 12 * (n + 1) = 12 * n + 12 by ring, List.take_add]

theorem length_le_totalPages_mul (l : List Product) :
    l.length ≤ 12 * (totalPages l).toNat := by
  unfold totalPages mathCeilDiv ITEMS_PER_PAGE
  omega

/-- C5: for every filtered collection and every current page number, the page
(the slice of length 12 taken from `(currentPage - 1) * 12`) holds at most 12
products. -/
theorem paginatedProducts_length_le (filteredProducts : List Product) (currentPage : Int) :
    (paginatedProducts filteredProducts currentPage).length ≤ 12 := by
  unfold paginatedProducts ITEMS_PER_PAGE
  apply jsSlice_length_le <;> omega

/-- C6: concatenating the pages 1, 2, ..., `totalPages` in order gives back the
filtered collection, so every item is on exactly one page, once, in the original
order. -/
theorem pages_concat_eq_filtered (filteredProducts : List Product) :
    (List.range (totalPages filteredProducts).toNat).flatMap
        (fun k => paginatedProducts filteredProducts ((k : Int) + 1)) =
      filteredProducts := by
  simp only [paginatedProducts_succ]
  rw [flatMap_pages_eq_take]
  exact List.take_of_length_le (length_le_totalPages_mul filteredProducts)

end ProductPage

/-! ## Cart and checkout totals (C8, C9) -/

theorem foldl_add_eq_sum {α : Type} (f : α → Int) :
    ∀ (l : List α) (a : Int), l.foldl (fun acc item => acc + f item) a = a + (l.map f).sum
  | [], a => by simp
  | x :: xs, a => by
    simp only [List.foldl_cons, List.map_cons, List.sum_cons]
    rw [foldl_add_eq_sum f xs (a + f x)]
    ring

/-- C8: the Cart page shows the server-reported `total_price` when it is present
and non-zero, and otherwise the sum over the cart items of `price_at_addition`
times `quantity`, a missing price counting as 0 (and 0 when there is no cart or
no item list); the scenario cart has subtotal 250,000. -/
theorem cart_subtotal_spec (cart : CartData) :
    (∀ t, cart.total_price = some t → t ≠ 0 → Cart.subtotal (some cart) = t) ∧
      (cart.total_price = none ∨ cart.total_price = some 0 →
        Cart.subtotal (some cart) =
          ((cart.items.getD []).map
            (fun item => numOr item.price_at_addition 0 * item.quantity)).sum) ∧
      Cart.subtotal none = 0 ∧
      Cart.subtotal (some scenarioCart) = 250000 := by
  have hsum : (Cart.cartItems (some cart)).foldl
        (fun acc item => acc + item.price * item.quantity) 0 =
      ((cart.items.getD []).map
        (fun item => numOr item.price_at_addition 0 * item.quantity)).sum := by
    rw [foldl_add_eq_sum (fun item : Cart.Item => item.price * item.quantity)]
    unfold Cart.cartItems
    cases hi : cart.items with
    | none => simp [hi]
    | some items => simp [hi, Function.comp_def]
  refine ⟨?_, ?_, rfl, rfl⟩
  · intro t ht hne
    simp [Cart.subtotal, ht, numOr, hne]
  · rintro (h | h)
    · simp only [Cart.subtotal, Option.bind, h, numOr]
      exact hsum
    · simp only [Cart.subtotal, Option.bind, h, numOr, ne_eq, not_true_eq_false, if_false]
      exact hsum

/-- Witness for C8: a cart whose server total differs from the item sum shows
the server total, and the scenario cart shows the item sum. -/
theorem cart_subtotal_spec_witness :
    Cart.subtotal (some { scenarioCart with total_price := some 240000 }) = 240000 ∧
      Cart.subtotal (some scenarioCart) =
        ((scenarioCart.items.getD []).map
          (fun item => numOr item.price_at_addition 0 * item.quantity)).sum :=
  ⟨(cart_subtotal_spec { scenarioCart with total_price := some 240000 }).1 240000 rfl
      (by decide),
    (cart_subtotal_spec scenarioCart).2.1 (Or.inl rfl)⟩

/-- Counterexample to C9: the method value `toString` is none of the three methods,
yet its cost is not 0: the lookup finds the function inherited from
`Object.prototype`, and the total of the scenario cart is a string, not the
number 250,000. -/
theorem checkout_total_inherited_method :
    "toString" ≠ "standard" ∧ "toString" ≠ "express" ∧ "toString" ≠ "same_day" ∧
      Checkout.shippingCost "toString" = .inherited "toString" ∧
      Checkout.shippingCost "toString" ≠ .number 0 ∧
      Checkout.total (some scenarioCart) "toString" = .concat 250000 "toString" ∧
      Checkout.total (some scenarioCart) "toString" ≠
        .number (Checkout.subtotal (some scenarioCart) + 0) :=
  ⟨by decide, by decide, by decide, rfl, by decide, rfl, by decide⟩

/-- C9 as amended: for every cart and every shipping method that is not the name
of a property inherited from `Object.prototype`, the checkout total is the
checkout subtotal plus the shipping cost of the method, which is 15,000 for
standard, 35,000 for express, 75,000 for same_day and 0 for any other such
value; a subtotal of 250,000 with the standard method gives 265,000. -/
theorem checkout_total_spec (cartData : Option CartData) (shippingMethod : String)
    (hown : shippingMethod ∉ Checkout.objectPrototypeKeys) :
    (∃ cost : Int,
        Checkout.shippingCost shippingMethod = .number cost ∧
          Checkout.total cartData shippingMethod =
            .number (Checkout.subtotal cartData + cost) ∧
          (shippingMethod = "standard" → cost = 15000) ∧
          (shippingMethod = "express" → cost = 35000) ∧
          (shippingMethod = "same_day" → cost = 75000) ∧
          (shippingMethod ≠ "standard" → shippingMethod ≠ "express" →
            shippingMethod ≠ "same_day" → cost = 0)) ∧
      Checkout.total cartData "standard" = .number (Checkout.subtotal cartData + 15000) ∧
      Checkout.total cartData "express" = .number (Checkout.subtotal cartData + 35000) ∧
      Checkout.total cartData "same_day" = .number (Checkout.subtotal cartData + 75000) ∧
      (Checkout.subtotal cartData = 250000 →
        Checkout.total cartData "standard" = .number 265000) ∧
      Checkout.total (some scenarioCart) "standard" = .number 265000 := by
  refine ⟨?_, rfl, rfl, rfl, ?_, rfl⟩
  · by_cases h1 : shippingMethod = "standard"
    · subst h1
      exact ⟨15000, rfl, rfl, fun _ => rfl, by decide, by decide, fun h => absurd rfl h⟩
    · by_cases h2 : shippingMethod = "express"
      · subst h2
        exact ⟨35000, rfl, rfl, by decide, fun _ => rfl, by decide,
          fun _ h => absurd rfl h⟩
      · by_cases h3 : shippingMethod = "same_day"
        · subst h3
          exact ⟨75000, rfl, rfl, by decide, by decide, fun _ => rfl,
            fun _ _ h => absurd rfl h⟩
        · have hcost : Checkout.shippingCost shippingMethod = .number 0 := by
            simp [Checkout.shippingCost, Checkout.shippingCosts, h1, h2, h3, hown]
          refine ⟨0, hcost, ?_, fun h => absurd h h1, fun h => absurd h h2,
            fun h => absurd h h3, fun _ _ _ => rfl⟩
          simp [Checkout.total, hcost]
  · intro h
    have ht : Checkout.total cartData "standard" =
        .number (Checkout.subtotal cartData + 15000) := rfl
    rw [ht, h]
    rfl

/-- Witness for C9 as amended: the method value `pickup` is not an inherited
property name and costs nothing; the scenario cart with the standard method
totals 265,000. -/
theorem checkout_total_spec_witness :
    Checkout.total (some scenarioCart) "pickup" = .number 250000 ∧
      Checkout.total (some scenarioCart) "standard" = .number 265000 :=
  ⟨by
      obtain ⟨cost, _, htotal, _, _, _, hzero⟩ :=
        (checkout_total_spec (some scenarioCart) "pickup" (by decide)).1
      rw [htotal, hzero (by decide) (by decide) (by decide)]
      rfl,
    (checkout_total_spec (some scenarioCart) "pickup" (by decide)).2.2.2.2.1 rfl⟩

/-! ## Unauthenticated cart mutations (C10) -/

/-- C10: when the user is not authenticated, the add-to-cart handlers of Home,
ProductPage and ViewProduct and the buy-now handler of ViewProduct perform
exactly two actions, a notification and a navigation to the login page
scheduled after 1000 ms: `cartService.addToCart` is not called and no event is
dispatched, whatever the stored token, the product, the quantity and the
behaviour of the service. -/
theorem unauthenticated_handlers_send_nothing (token : Option String)
    (outcome : ServiceOutcome) (homeProduct : Option Home.Product)
    (listProduct : Option ProductPage.Product) (detailProduct : Option ViewProduct.Product)
    (quantity : Int) :
    (∀ trace ∈
        [ Home.handleAddToCart false token outcome homeProduct,
          ProductPage.handleAddToCart false token outcome listProduct,
          ViewProduct.handleAddToCart false token outcome detailProduct quantity,
          ViewProduct.handleBuyNow false token outcome detailProduct quantity ],
        (∀ e ∈ trace, e.isAddToCart = false) ∧
          (∀ e ∈ trace, ∀ type, e ≠ Effect.dispatchEvent type) ∧
          cartUpdatedCount trace = 0 ∧
          Effect.setTimeoutNavigate "/login" 1000 ∈ trace) ∧
      Home.handleAddToCart false token outcome homeProduct =
        [ .setNotification true "Please log in first to add items to your cart.",
          .setTimeoutNavigate "/login" 1000 ] ∧
      ProductPage.handleAddToCart false token outcome listProduct =
        [ .setNotification true "Please log in first to add items to your cart.",
          .setTimeoutNavigate "/login" 1000 ] ∧
      ViewProduct.handleAddToCart false token outcome detailProduct quantity =
        [ .setNotification true "Please log in first to add items to your cart.",
          .setTimeoutNavigate "/login" 1000 ] ∧
      ViewProduct.handleBuyNow false token outcome detailProduct quantity =
        [ .setNotification true "Please log in first to proceed to checkout.",
          .setTimeoutNavigate "/login" 1000 ] := by
  refine ⟨?_, rfl, rfl, rfl, rfl⟩
  intro trace htrace
  simp only [List.mem_cons, List.mem_singleton, List.not_mem_nil, or_false] at htrace
  rcases htrace with h | h | h | h <;> subst h <;>
    simp [Home.handleAddToCart, ProductPage.handleAddToCart, ViewProduct.handleAddToCart,
      ViewProduct.handleBuyNow, Effect.isAddToCart, cartUpdatedCount]

/-! ## The cart-changed signal after add-to-cart (C11, C17) -/

/-- C11: in each add-to-cart handler (Home, ProductPage, ViewProduct), when the
user is authenticated and `cartService.addToCart` resolves with a successful
response, the handler dispatches `cartUpdated` exactly once. The request is
sent, and the event dispatched once, for every product (on ProductPage: every
product with a non-zero id); in general, whenever the trace contains the
request, it contains exactly one `cartUpdated`. -/
theorem successful_add_dispatches_once (token : Option String) (response : ServiceResponse)
    (hsuccess : response.success = true) :
    (∀ p, cartUpdatedCount (Home.handleAddToCart true token (.resolved response) (some p)) = 1) ∧
      (∀ p : ProductPage.Product, p.id ≠ 0 →
        cartUpdatedCount
          (ProductPage.handleAddToCart true token (.resolved response) (some p)) = 1) ∧
      (∀ p quantity,
        cartUpdatedCount
          (ViewProduct.handleAddToCart true token (.resolved response) (some p) quantity) = 1) ∧
      (∀ product,
        (∃ e ∈ Home.handleAddToCart true token (.resolved response) product,
            e.isAddToCart = true) →
          cartUpdatedCount (Home.handleAddToCart true token (.resolved response) product) = 1) ∧
      (∀ product,
        (∃ e ∈ ProductPage.handleAddToCart true token (.resolved response) product,
            e.isAddToCart = true) →
          cartUpdatedCount
            (ProductPage.handleAddToCart true token (.resolved response) product) = 1) ∧
      (∀ product quantity,
        (∃ e ∈ ViewProduct.handleAddToCart true token (.resolved response) product quantity,
            e.isAddToCart = true) →
          cartUpdatedCount
            (ViewProduct.handleAddToCart true token (.resolved response) product quantity) =
              1) := by
  refine ⟨?_, ?_, ?_, ?_, ?_, ?_⟩
  · intro p
    simp [Home.handleAddToCart, cartUpdatedCount]
  · intro p hp
    simp [ProductPage.handleAddToCart, cartUpdatedCount, hp, hsuccess]
  · intro p quantity
    simp [ViewProduct.handleAddToCart, cartUpdatedCount, hsuccess]
  · intro product _
    cases product with
    | none => simp_all [Home.handleAddToCart, Effect.isAddToCart]
    | some p => simp [Home.handleAddToCart, cartUpdatedCount]
  · intro product hsent
    cases product with
    | none => simp [ProductPage.handleAddToCart] at hsent
    | some p =>
      by_cases hp : p.id = 0
      · simp [ProductPage.handleAddToCart, hp] at hsent
      · simp [ProductPage.handleAddToCart, cartUpdatedCount, hp, hsuccess]
  · intro product quantity hsent
    cases product with
    | none => simp [ViewProduct.handleAddToCart] at hsent
    | some p => simp [ViewProduct.handleAddToCart, cartUpdatedCount, hsuccess]

/-- Witness for C11: a successful response carrying a message, for a product
with id 7 on each page. -/
theorem successful_add_dispatches_once_witness :
    cartUpdatedCount
        (Home.handleAddToCart true (some "token") (.resolved ⟨true, some "Added"⟩)
          (some ⟨7, some "Tea", "Box"⟩)) = 1 ∧
      cartUpdatedCount
        (ProductPage.handleAddToCart true (some "token") (.resolved ⟨true, some "Added"⟩)
          (some ⟨7, some "Tea", 25000, "DRINKS", "tea.png", 2, "Box"⟩)) = 1 ∧
      cartUpdatedCount
        (ViewProduct.handleAddToCart true (some "token") (.resolved ⟨true, some "Added"⟩)
          (some ⟨7, some "Tea", some "Box", some 5⟩) 3) = 1 :=
  ⟨(successful_add_dispatches_once (some "token") ⟨true, some "Added"⟩ rfl).1 _,
    (successful_add_dispatches_once (some "token") ⟨true, some "Added"⟩ rfl).2.1 _
      (by decide),
    (successful_add_dispatches_once (some "token") ⟨true, some "Added"⟩ rfl).2.2.1 _ _⟩

/-- C17 at the failing input: on ProductPage and ViewProduct an unsuccessful
response or a thrown error dispatches no `cartUpdated`, and on Home a thrown
error dispatches none; but the Home handler does not look at
`response.success` and dispatches `cartUpdated` once after an unsuccessful
response. -/
theorem failed_add_dispatch_behaviour :
    (∀ auth token message product,
        cartUpdatedCount
          (ProductPage.handleAddToCart auth token (.resolved ⟨false, message⟩) product) = 0) ∧
      (∀ auth token message product,
        cartUpdatedCount
          (ProductPage.handleAddToCart auth token (.rejected message) product) = 0) ∧
      (∀ auth token message product quantity,
        cartUpdatedCount
          (ViewProduct.handleAddToCart auth token (.resolved ⟨false, message⟩) product
            quantity) = 0) ∧
      (∀ auth token message product quantity,
        cartUpdatedCount
          (ViewProduct.handleAddToCart auth token (.rejected message) product quantity) = 0) ∧
      (∀ auth token message product,
        cartUpdatedCount (Home.handleAddToCart auth token (.rejected message) product) = 0) ∧
      Home.handleAddToCart true (some "token") (.resolved ⟨false, some "Insufficient stock"⟩)
          (some ⟨7, some "Tea", "Box"⟩) =
        [ .addToCart 7 1 (some "token"),
          .setNotification true "Insufficient stock",
          .dispatchEvent "cartUpdated" ] ∧
      cartUpdatedCount
        (Home.handleAddToCart true (some "token")
          (.resolved ⟨false, some "Insufficient stock"⟩) (some ⟨7, some "Tea", "Box"⟩)) = 1 := by
  refine ⟨?_, ?_, ?_, ?_, ?_, rfl, rfl⟩
  · intro auth token message product
    cases auth <;> cases product <;>
      simp [ProductPage.handleAddToCart, cartUpdatedCount]
    split <;> simp
  · intro auth token message product
    cases auth <;> cases product <;>
      simp [ProductPage.handleAddToCart, cartUpdatedCount]
    split <;> simp
  · intro auth token message product quantity
    cases auth <;> cases product <;>
      simp [ViewProduct.handleAddToCart, cartUpdatedCount]
  · intro auth token message product quantity
    cases auth <;> cases product <;>
      simp [ViewProduct.handleAddToCart, cartUpdatedCount]
  · intro auth token message product
    cases auth <;> cases product <;>
      simp [Home.handleAddToCart, cartUpdatedCount]

/-! ## From the product-list response to the pages (C12 to C14) -/

namespace ProductPage

theorem passesFilters_initialFilters (m : Int) (p : Product) :
    passesFilters initialFilters m p = true := by
  simp [passesFilters, initialFilters]

/-- With no filter applied the page displays the valid products of a
successful response. -/
theorem displayedAfterLoad_success (response : ProductsResponse) (products : List RawProduct)
    (hs : response.success = true) (hp : response.products = some products) :
    displayedAfterLoad (.resolved response) = .ok (validProducts products) := by
  unfold displayedAfterLoad
  simp only [loadData, hs, hp]
  have h := (filterEffect_ok_iff
    { products := validProducts products, filteredProducts := [], currentPage := 1,
      filters := initialFilters } _).2 ⟨Or.inl rfl, rfl⟩
  rw [h]
  simp only [Except.ok.injEq]
  rw [List.filter_eq_self]
  intro p _
  exact passesFilters_initialFilters _ p

/-- Counterexample to C12: a successful response of 25 products, one of which has
no image, is displayed as 24 products on 2 pages, and the product without an
image is not among them. -/
theorem displayed_drops_imageless_product :
    (imagelessProduct :: scenarioProducts.tail).length = 25 ∧
      ∃ displayed,
        displayedAfterLoad (.resolved (successResponse (imagelessProduct :: scenarioProducts.tail))) =
            .ok displayed ∧
          displayed.length = 24 ∧ totalPages displayed = 2 ∧
          imagelessProduct.id ∉ displayed.map Product.id :=
  ⟨by decide, _, rfl, by decide, by decide, by decide⟩

/-- C12 as amended: with no filters applied, the displayed collection holds the
products of a successful response that have an image, once each and in response
order, each as stored by the loader; when every product of the response has an
image these are all the products of the response, and a response of 25 items is
then shown as 25 products on 3 pages with page 1 holding items 1 to 12. -/
theorem displayed_is_valid_products (response : ProductsResponse)
    (products : List RawProduct) (hs : response.success = true)
    (hp : response.products = some products) :
    displayedAfterLoad (.resolved response) =
        .ok ((products.filter hasImage).map loadProduct) ∧
      ((∀ p ∈ products, hasImage p = true) →
        displayedAfterLoad (.resolved response) = .ok (products.map loadProduct) ∧
          (products.length = 25 →
            (products.map loadProduct).length = 25 ∧
              totalPages (products.map loadProduct) = 3 ∧
              paginatedProducts (products.map loadProduct) 1 =
                (products.take 12).map loadProduct)) := by
  have hmain := displayedAfterLoad_success response products hs hp
  refine ⟨hmain, fun himg => ?_⟩
  have hall : products.filter hasImage = products := List.filter_eq_self.2 himg
  refine ⟨?_, fun hlen => ⟨?_, ?_, ?_⟩⟩
  · rw [hmain, validProducts, hall]
  · simp [hlen]
  · simp only [totalPages, mathCeilDiv, ITEMS_PER_PAGE, List.length_map, hlen]
    decide
  · have h := paginatedProducts_succ (products.map loadProduct) 0
    simp only [Nat.cast_zero, zero_add, Nat.mul_zero, List.drop_zero] at h
    rw [h, List.map_take]

/-- Witness for C12 as amended: the 25-item scenario response. -/
theorem displayed_is_valid_products_witness :
    displayedAfterLoad (.resolved (successResponse scenarioProducts)) =
        .ok (scenarioProducts.map loadProduct) ∧
      totalPages (scenarioProducts.map loadProduct) = 3 ∧
      paginatedProducts (scenarioProducts.map loadProduct) 1 =
        (scenarioProducts.take 12).map loadProduct :=
  ⟨((displayed_is_valid_products (successResponse scenarioProducts) scenarioProducts rfl
      rfl).2 (by decide)).1,
    (((displayed_is_valid_products (successResponse scenarioProducts) scenarioProducts rfl
      rfl).2 (by decide)).2 (by decide)).2.1,
    (((displayed_is_valid_products (successResponse scenarioProducts) scenarioProducts rfl
      rfl).2 (by decide)).2 (by decide)).2.2⟩

/-- C13: page navigation clamps at the bounds. From a current page within
1..totalPages, `handlePageChange` with any requested integer leaves the page
within 1..totalPages and changes nothing but the page; asking for the previous
page on page 1 leaves the page at 1, and asking for the next page on the last
page leaves it on the last page (a current page within the bounds implies
that there is at least one page). -/
theorem handlePageChange_clamps (s : PageState) (page : Int) (hlow : 1 ≤ s.currentPage)
    (hhigh : s.currentPage ≤ totalPages s.filteredProducts) :
    1 ≤ (handlePageChange s page).currentPage ∧
      (handlePageChange s page).currentPage ≤ totalPages (handlePageChange s page).filteredProducts ∧
      (handlePageChange s page).filteredProducts = s.filteredProducts ∧
      (s.currentPage = 1 → (handlePageChange s (s.currentPage - 1)).currentPage = 1) ∧
      (s.currentPage = totalPages s.filteredProducts →
        (handlePageChange s (s.currentPage + 1)).currentPage =
          totalPages s.filteredProducts) := by
  have hfp : ∀ q, (handlePageChange s q).filteredProducts = s.filteredProducts := by
    intro q
    unfold handlePageChange
    split <;> rfl
  refine ⟨?_, ?_, hfp page, ?_, ?_⟩
  · unfold handlePageChange
    split
    · rename_i h
      exact h.1
    · exact hlow
  · rw [hfp]
    unfold handlePageChange
    split
    · rename_i h
      exact h.2
    · exact hhigh
  · intro h1
    unfold handlePageChange
    rw [if_neg (by omega)]
    exact h1
  · intro hlast
    unfold handlePageChange
    rw [if_neg (by omega)]
    exact hlast

/-- Witness for C13: 25 displayed products give bounds 1 and 3; the previous
page of page 1 is page 1. -/
theorem handlePageChange_clamps_witness :
    totalPages (scenarioProducts.map loadProduct) = 3 ∧
      (handlePageChange
        { products := scenarioProducts.map loadProduct,
          filteredProducts := scenarioProducts.map loadProduct, currentPage := 1,
          filters := initialFilters } (1 - 1)).currentPage = 1 :=
  ⟨by decide,
    (handlePageChange_clamps
      { products := scenarioProducts.map loadProduct,
        filteredProducts := scenarioProducts.map loadProduct, currentPage := 1,
        filters := initialFilters } 0 (by decide) (by decide)).2.2.2.1 rfl⟩

theorem paginatedProducts_length (l : List Product) (k : Int) (hk : 1 ≤ k) :
    ((paginatedProducts l k).length : Int) = min 12 (max ((l.length : Int) - 12 * (k - 1)) 0) := by
  have hcast : k = ((k - 1).toNat : Int) + 1 := by omega
  rw [hcast, paginatedProducts_succ, List.length_take, List.length_drop]
  omega

/-- C14: pages are fixed-size. For a filtered collection of n ≥ 1 items, every
page k with 1 ≤ k < totalPages holds exactly 12 items, the last page holds
n - 12 × (totalPages - 1) items, a number between 1 and 12, and no page in
1..totalPages is empty. -/
theorem pages_are_fixed_size (filteredProducts : List Product)
    (hn : 1 ≤ filteredProducts.length) :
    (∀ k : Int, 1 ≤ k → k < totalPages filteredProducts →
        (paginatedProducts filteredProducts k).length = 12) ∧
      ((paginatedProducts filteredProducts (totalPages filteredProducts)).length : Int) =
        filteredProducts.length - 12 * (totalPages filteredProducts - 1) ∧
      1 ≤ (paginatedProducts filteredProducts (totalPages filteredProducts)).length ∧
      (paginatedProducts filteredProducts (totalPages filteredProducts)).length ≤ 12 ∧
      (∀ k : Int, 1 ≤ k → k ≤ totalPages filteredProducts →
        paginatedProducts filteredProducts k ≠ []) := by
  have htp : totalPages filteredProducts = -((-(filteredProducts.length : Int)) / 12) := rfl
  have hlast := paginatedProducts_length filteredProducts (totalPages filteredProducts)
    (by omega)
  refine ⟨?_, ?_, ?_, ?_, ?_⟩
  · intro k hk1 hk2
    have h := paginatedProducts_length filteredProducts k hk1
    omega
  · omega
  · omega
  · omega
  · intro k hk1 hk2 hnil
    have h := paginatedProducts_length filteredProducts k hk1
    rw [hnil] at h
    simp only [List.length_nil, Nat.cast_zero] at h
    omega

/-- Witness for C14: 25 displayed products give two pages of 12 and a last page
of 1. -/
theorem pages_are_fixed_size_witness :
    (paginatedProducts (scenarioProducts.map loadProduct) 2).length = 12 ∧
      ((paginatedProducts (scenarioProducts.map loadProduct)
          (totalPages (scenarioProducts.map loadProduct))).length : Int) =
        (scenarioProducts.map loadProduct).length -
          12 * (totalPages (scenarioProducts.map loadProduct) - 1) :=
  ⟨(pages_are_fixed_size (scenarioProducts.map loadProduct) (by decide)).1 2 (by decide)
      (by decide),
    (pages_are_fixed_size (scenarioProducts.map loadProduct) (by decide)).2.1⟩

end ProductPage

/-! ## The Navbar cart count (C15) -/

namespace Navbar

theorem receiveCartUpdates_requests (token : Option String) (htoken : tokenMissing token = false) :
    ∀ (outcomes : List CartCountOutcome) (cartCount : Int),
      (receiveCartUpdates true token outcomes cartCount).trace.count (.getCartCount token) =
        outcomes.length
  | [], _ => by simp [receiveCartUpdates]
  | outcome :: rest, cartCount => by
    have ih := receiveCartUpdates_requests token htoken rest
      (receiveEvent "cartUpdated" true token outcome cartCount).cartCount
    simp only [receiveCartUpdates, List.count_append, ih, List.length_cons]
    have hone : (receiveEvent "cartUpdated" true token outcome cartCount).trace.count
        (.getCartCount token) = 1 := by
      cases outcome with
      | resolved response =>
        rcases response with ⟨success, count⟩
        cases success <;> cases count <;>
          simp [receiveEvent, handleCartUpdate, fetchCartCount, htoken]
      | rejected => simp [receiveEvent, handleCartUpdate, fetchCartCount, htoken]
    omega

theorem receiveCartUpdates_append (isAuthenticated : Bool) (token : Option String)
    (last : CartCountOutcome) :
    ∀ (outcomes : List CartCountOutcome) (cartCount : Int),
      (receiveCartUpdates isAuthenticated token (outcomes ++ [last]) cartCount).cartCount =
        (receiveEvent "cartUpdated" isAuthenticated token last
          (receiveCartUpdates isAuthenticated token outcomes cartCount).cartCount).cartCount
  | [], _ => by simp [receiveCartUpdates]
  | outcome :: rest, cartCount => by
    simp only [List.cons_append, receiveCartUpdates]
    exact receiveCartUpdates_append isAuthenticated token last rest _

/-- C15: a `cartUpdated` signal received by the mounted Navbar runs
`fetchCartCount` once, so that a run of signals sends one count request per
signal when the user is authenticated and a token is stored; and when the fetch
resolves with a successful response carrying the number n, the cart count
becomes exactly n, whatever it was before. -/
theorem cart_updated_refreshes_count (token : Option String)
    (htoken : tokenMissing token = false) (n cartCount : Int) :
    receiveEvent "cartUpdated" true token (.resolved ⟨true, some n⟩) cartCount =
        { cartCount := n, trace := [.getCartCount token] } ∧
      (∀ auth outcome,
        receiveEvent "cartUpdated" auth token outcome cartCount =
          fetchCartCount auth token outcome cartCount) ∧
      (∀ outcomes : List CartCountOutcome,
        (receiveCartUpdates true token outcomes cartCount).trace.count (.getCartCount token) =
          outcomes.length) ∧
      (∀ outcomes : List CartCountOutcome,
        (receiveCartUpdates true token (outcomes ++ [.resolved ⟨true, some n⟩])
          cartCount).cartCount = n) := by
  refine ⟨?_, ?_, ?_, ?_⟩
  · simp [receiveEvent, handleCartUpdate, fetchCartCount, htoken]
  · intro auth outcome
    simp [receiveEvent, handleCartUpdate]
  · intro outcomes
    exact receiveCartUpdates_requests token htoken outcomes cartCount
  · intro outcomes
    rw [receiveCartUpdates_append]
    simp [receiveEvent, handleCartUpdate, fetchCartCount, htoken]

/-- Witness for C15: the count goes from 2 to 3 when the server reports 3. -/
theorem cart_updated_refreshes_count_witness :
    receiveEvent "cartUpdated" true (some "token") (.resolved ⟨true, some 3⟩) 2 =
      { cartCount := 3, trace := [.getCartCount (some "token")] } :=
  (cart_updated_refreshes_count (some "token") rfl 3 2).1

end Navbar

/-! ## Cart page mutations (C16) -/

/-- C16: on the Cart page, with a stored token (and, for `removeItem`, a confirmed
dialog), `updateQuantity` and `removeItem` call `loadCart` and dispatch exactly
one `cartUpdated` after a successful response; after an unsuccessful response
or a thrown error they call no `loadCart` and dispatch no `cartUpdated`, so the
cart data on display is not touched. -/
theorem cart_mutations_refetch_and_signal (token : Option String)
    (htoken : tokenMissing token = false) (productId newQuantity : Int)
    (message : Option String) :
    Cart.updateQuantity token (.resolved ⟨true, message⟩) productId newQuantity =
        [ .updateCartItem productId (max 1 newQuantity) token, .loadCart,
          .dispatchEvent "cartUpdated" ] ∧
      Cart.removeItem true token (.resolved ⟨true, message⟩) productId =
        [ .setRemovingItem (some productId), .removeFromCart productId token,
          .alert "Item removed successfully!", .loadCart, .dispatchEvent "cartUpdated",
          .setRemovingItem none ] ∧
      (∀ trace ∈
          [ Cart.updateQuantity token (.resolved ⟨true, message⟩) productId newQuantity,
            Cart.removeItem true token (.resolved ⟨true, message⟩) productId ],
        trace.count Effect.loadCart = 1 ∧ cartUpdatedCount trace = 1) ∧
      (∀ trace ∈
          [ Cart.updateQuantity token (.resolved ⟨false, message⟩) productId newQuantity,
            Cart.updateQuantity token (.rejected message) productId newQuantity,
            Cart.removeItem true token (.resolved ⟨false, message⟩) productId,
            Cart.removeItem true token (.rejected message) productId ],
        Effect.loadCart ∉ trace ∧ cartUpdatedCount trace = 0) := by
  refine ⟨?_, ?_, ?_, ?_⟩
  · simp [Cart.updateQuantity, htoken]
  · simp [Cart.removeItem, htoken]
  · intro trace htrace
    simp only [List.mem_cons, List.mem_singleton, List.not_mem_nil, or_false] at htrace
    rcases htrace with h | h <;> subst h <;>
      simp [Cart.updateQuantity, Cart.removeItem, htoken, cartUpdatedCount]
  · intro trace htrace
    simp only [List.mem_cons, List.mem_singleton, List.not_mem_nil, or_false] at htrace
    rcases htrace with h | h | h | h <;> subst h <;>
      simp [Cart.updateQuantity, Cart.removeItem, htoken, cartUpdatedCount]

/-- Witness for C16: raising the quantity of product 7 to 3 with a stored
token. -/
theorem cart_mutations_refetch_and_signal_witness :
    Cart.updateQuantity (some "token") (.resolved ⟨true, none⟩) 7 3 =
      [ .updateCartItem 7 3 (some "token"), .loadCart, .dispatchEvent "cartUpdated" ] :=
  (cart_mutations_refetch_and_signal (some "token") rfl 7 3 none).1

/-! ## Loading the cart (C18 to C20) -/

theorem strOr_ne_empty (a : Option String) (b : String) (hb : b ≠ "") : strOr a b ≠ "" := by
  unfold strOr
  cases a with
  | none => exact hb
  | some v =>
    by_cases hv : v = ""
    · simpa [hv] using hb
    · simp [hv]

/-- Counterexample to C18: on the Checkout page a successful fetch of an empty
cart leaves a non-empty error message, and the page shows its error view, not
its empty view. -/
theorem checkout_empty_cart_sets_error :
    (Checkout.loadCart true (some "token")
        (.resolved (some ⟨true, none, some emptyCart⟩)) initialCartPage).state.error =
        "Your cart is empty. Redirecting to shop." ∧
      Checkout.view
        (Checkout.loadCart true (some "token")
          (.resolved (some ⟨true, none, some emptyCart⟩)) initialCartPage).state = .error :=
  ⟨rfl, rfl⟩

/-- C18 as amended: on the Cart page an empty cart is not an error: after a
successful fetch of a cart with zero items the error state is empty and the
page shows its empty view. On the Checkout page such a fetch sets the error
message `Your cart is empty. Redirecting to shop.`, the page shows its error
view and a navigation to the shop is scheduled after 1500 ms. -/
theorem empty_cart_views (token : Option String) (htoken : tokenMissing token = false)
    (cart : CartData) (hzero : cart.items = none ∨ cart.items = some [])
    (message : Option String) (s : CartPageState) :
    (Cart.loadCart true token (.resolved (some ⟨true, message, some cart⟩)) s).state.error = "" ∧
      Cart.view
        (Cart.loadCart true token (.resolved (some ⟨true, message, some cart⟩)) s).state =
        .empty ∧
      (Checkout.loadCart true token (.resolved (some ⟨true, message, some cart⟩)) s).state.error =
        "Your cart is empty. Redirecting to shop." ∧
      Checkout.view
        (Checkout.loadCart true token (.resolved (some ⟨true, message, some cart⟩)) s).state =
        .error ∧
      (Checkout.loadCart true token (.resolved (some ⟨true, message, some cart⟩)) s).trace =
        [ .getCart token, .setTimeoutNavigate "/shop" 1500 ] := by
  rcases hzero with h | h <;>
    simp [Cart.loadCart, Cart.loadCartTry, Cart.view, Cart.cartItems, Checkout.loadCart,
      Checkout.loadCartTry, Checkout.view, htoken, h]

/-- Witness for C18 as amended: the empty cart on a freshly mounted Cart page. -/
theorem empty_cart_views_witness :
    Cart.view
      (Cart.loadCart true (some "token") (.resolved (some ⟨true, none, some emptyCart⟩))
        initialCartPage).state = .empty :=
  (empty_cart_views (some "token") rfl emptyCart (Or.inr rfl) none initialCartPage).2.1

/-- Counterexample to C19: when the cart fetch throws for an authenticated user,
`loadCart` on the Cart page performs the request and logs the error, and
schedules no navigation. -/
theorem cart_fetch_failure_schedules_no_redirect :
    (Cart.loadCart true (some "token") .rejected initialCartPage).trace =
        [ .getCart (some "token"), .consoleError "Error loading cart:" ] ∧
      Effect.setTimeoutNavigate "/login" 1500 ∉
        (Cart.loadCart true (some "token") .rejected initialCartPage).trace :=
  ⟨rfl, by decide⟩

/-- C19 as amended: on the Cart and Checkout pages, whenever the cart fetch fails
(an unsuccessful response, or a thrown error), `loadCart` surfaces a non-empty
error message and schedules no navigation; the delayed redirect to the login
page is scheduled, with a non-empty message and without any fetch, when the
user is not authenticated. -/
theorem cart_fetch_failure_surfaces_error (token : Option String)
    (htoken : tokenMissing token = false) (message : Option String) (cart : Option CartData)
    (s : CartPageState) :
    (∀ r ∈
        [ Cart.loadCart true token (.resolved (some ⟨false, message, cart⟩)) s,
          Cart.loadCart true token .rejected s,
          Checkout.loadCart true token (.resolved (some ⟨false, message, cart⟩)) s,
          Checkout.loadCart true token .rejected s ],
        r.state.error ≠ "" ∧
          (∀ path delay, Effect.setTimeoutNavigate path delay ∉ r.trace) ∧
          (∀ path, Effect.navigate path ∉ r.trace)) ∧
      (∀ outcome, ∀ r ∈
        [ Cart.loadCart false token outcome s, Checkout.loadCart false token outcome s ],
        r.state.error ≠ "" ∧ r.trace = [ .setTimeoutNavigate "/login" 1500 ]) := by
  have h1 := strOr_ne_empty message "Failed to load cart data from server." (by decide)
  constructor
  · intro r hr
    simp only [List.mem_cons, List.mem_singleton, List.not_mem_nil, or_false] at hr
    rcases hr with h | h | h | h <;> subst h <;>
      simp [Cart.loadCart, Cart.loadCartTry, Checkout.loadCart, Checkout.loadCartTry, htoken, h1]
  · intro outcome r hr
    simp only [List.mem_cons, List.mem_singleton, List.not_mem_nil, or_false] at hr
    rcases hr with h | h <;> subst h <;> simp [Cart.loadCart, Checkout.loadCart]

/-- Witness for C19 as amended: an unsuccessful response without a message on the
Checkout page. -/
theorem cart_fetch_failure_surfaces_error_witness :
    (Checkout.loadCart true (some "token") (.resolved (some ⟨false, none, none⟩))
        initialCartPage).state.error ≠ "" :=
  ((cart_fetch_failure_surfaces_error (some "token") rfl none none initialCartPage).1
    (Checkout.loadCart true (some "token") (.resolved (some ⟨false, none, none⟩))
      initialCartPage)
    (by simp)).1

/-- C20: `loadCart` on the Cart and Checkout pages always settles with
`loading = false`, so the page is never left in its loading view, for every
authentication state, stored token, prior state and outcome of
`cartService.getCart`; and every exception that leaves the `try` block (a
rejected promise, a response that is not an object, a successful response with
no cart on Checkout) is handled by the `catch` block, which logs it and sets the
error message. -/
theorem loadCart_always_settles (isAuthenticated : Bool) (token : Option String)
    (outcome : GetCartOutcome) (s : CartPageState) :
    (Cart.loadCart isAuthenticated token outcome s).state.loading = false ∧
      (Checkout.loadCart isAuthenticated token outcome s).state.loading = false ∧
      Cart.view (Cart.loadCart isAuthenticated token outcome s).state ≠ .loading ∧
      Checkout.view (Checkout.loadCart isAuthenticated token outcome s).state ≠ .loading ∧
      (isAuthenticated = true → tokenMissing token = false →
        (Cart.loadCartTry token outcome { s with loading := true, error := "" }).thrown ≠ none →
        (Cart.loadCart isAuthenticated token outcome s).state.error =
            "Failed to connect to server or session expired. Please log in again." ∧
          Effect.consoleError "Error loading cart:" ∈
            (Cart.loadCart isAuthenticated token outcome s).trace) ∧
      (isAuthenticated = true → tokenMissing token = false →
        (Checkout.loadCartTry token outcome { s with loading := true, error := "" }).thrown ≠
            none →
        (Checkout.loadCart isAuthenticated token outcome s).state.error =
            "Failed to connect to server. Please try again." ∧
          Effect.consoleError "Error loading cart:" ∈
            (Checkout.loadCart isAuthenticated token outcome s).trace) := by
  have hc : (Cart.loadCart isAuthenticated token outcome s).state.loading = false := by
    unfold Cart.loadCart
    simp only []
    split
    · split <;> rfl
    · rfl
  have hk : (Checkout.loadCart isAuthenticated token outcome s).state.loading = false := by
    unfold Checkout.loadCart
    simp only []
    split
    · split <;> rfl
    · rfl
  refine ⟨hc, hk, ?_, ?_, ?_, ?_⟩
  · unfold Cart.view
    rw [hc]
    simp only [Bool.false_eq_true, if_false]
    split_ifs <;> simp
  · unfold Checkout.view
    rw [hk]
    simp only [Bool.false_eq_true, if_false]
    split_ifs <;> simp
  · intro hauth htoken hthrown
    unfold Cart.loadCart
    simp only [hauth, htoken, Bool.not_true, Bool.or_false, Bool.false_eq_true, if_false]
    cases hth : (Cart.loadCartTry token outcome { s with loading := true, error := "" }).thrown with
    | none => exact absurd hth hthrown
    | some e => simp
  · intro hauth htoken hthrown
    unfold Checkout.loadCart
    simp only [hauth, htoken, Bool.not_true, Bool.or_false, Bool.false_eq_true, if_false]
    cases hth :
        (Checkout.loadCartTry token outcome { s with loading := true, error := "" }).thrown with
    | none => exact absurd hth hthrown
    | some e => simp

/-- Witness for C20: a successful response without a cart throws inside the `try`
block of the Checkout page and is caught. -/
theorem loadCart_always_settles_witness :
    (Checkout.loadCart true (some "token") (.resolved (some ⟨true, none, none⟩))
        initialCartPage).state.error = "Failed to connect to server. Please try again." ∧
      (Checkout.loadCart true (some "token") (.resolved (some ⟨true, none, none⟩))
        initialCartPage).state.loading = false :=
  ⟨((loadCart_always_settles true (some "token") (.resolved (some ⟨true, none, none⟩))
      initialCartPage).2.2.2.2.2 rfl rfl (by decide)).1,
    (loadCart_always_settles true (some "token") (.resolved (some ⟨true, none, none⟩))
      initialCartPage).2.1⟩

/-! ## The notification timer (C21) -/

namespace Notification

/-- Counterexample to C21: a notification triggered at 2000 ms while an earlier one,
triggered at 0 ms, is still visible keeps the timer of the earlier one and is
hidden at 3000 ms, that is 1000 ms after its own trigger. -/
theorem retrigger_keeps_first_timer :
    run [(0, .trigger "first"), (2000, .trigger "second")] hidden =
        { mounted := true, isVisible := true, message := "second", timer := some 3000 } ∧
      advance 3000 (run [(0, .trigger "first"), (2000, .trigger "second")] hidden) = hidden ∧
      3000 < 2000 + 3000 :=
  ⟨rfl, rfl, by decide⟩

theorem shown_unmount (s : State) : shown (unmount s) = false := rfl

/-- The notification events of every unauthenticated add-to-cart or buy-now
handler: the log-in notification at once, the navigation 1000 ms later. -/
theorem eventsOfTrace_login (now : Nat) (message : String) :
    eventsOfTrace now
        [ .setNotification true message, .setTimeoutNavigate "/login" 1000 ] =
      [ (now, .trigger message), (now + 1000, .navigate) ] := rfl

/-- The log-in notification followed by the navigation 1000 ms later is shown
from its trigger until the navigation, and not after. -/
theorem login_notification_shown_one_second (now t : Nat) (message : String) :
    (now ≤ t → t < now + 1000 →
        shown (stateAt t [ (now, .trigger message), (now + 1000, .navigate) ] hidden) = true) ∧
      (now + 1000 ≤ t →
        shown (stateAt t [ (now, .trigger message), (now + 1000, .navigate) ] hidden) =
          false) := by
  constructor
  · intro h1 h2
    have hnot : ¬ (now + 1000 ≤ t) := by omega
    have hnot3 : ¬ (now + 3000 ≤ t) := by omega
    simp [stateAt, List.filter, h1, hnot, hnot3, run, trigger, advance, hidden, shown]
  · intro h1
    have h0 : now ≤ t := by omega
    have hnot3 : ¬ (now + 3000 ≤ now + 1000) := by omega
    simp [stateAt, List.filter, h0, h1, hnot3, run, trigger, advance, hidden, shown, unmount]

/-- After an authenticated buy-now the page is left at once, so whatever
notification the handler has set is not shown. -/
theorem buy_now_notification_not_shown (now t : Nat) (ht : now ≤ t) (token : Option String)
    (outcome : ServiceOutcome) (product : Option ViewProduct.Product) (quantity : Int) :
    shown (stateAt t
      (eventsOfTrace now (ViewProduct.handleBuyNow true token outcome product quantity))
      hidden) = false := by
  have hnot3 : ¬ (now + 3000 ≤ now) := by omega
  cases product with
  | none =>
    simp [ViewProduct.handleBuyNow, ViewProduct.handleAddToCart, eventsOfTrace,
      immediateEvents, delayedEvents, stateAt, List.filter, ht, run, advance, hidden, shown,
      unmount]
  | some p =>
    cases outcome with
    | rejected message =>
      simp [ViewProduct.handleBuyNow, ViewProduct.handleAddToCart, eventsOfTrace,
        immediateEvents, delayedEvents, stateAt, List.filter, ht, hnot3, run, advance,
        trigger, hidden, shown, unmount]
    | resolved response =>
      rcases response with ⟨success, message⟩
      cases success <;>
        simp [ViewProduct.handleBuyNow, ViewProduct.handleAddToCart, eventsOfTrace,
          immediateEvents, delayedEvents, stateAt, List.filter, ht, hnot3, run, advance,
          trigger, hidden, shown, unmount]

/-- C21 as amended: while its page stays mounted, a notification triggered while
none is visible stays visible, with its message, until 3000 ms after its
trigger unless it is closed earlier, and is hidden with an empty message from
then on; a trigger that arrives while a notification is visible replaces the
message and keeps the running timer; an explicit close and a due timer both
lead to the hidden state with an empty message. When the page is left the
notification disappears with it and no later trigger, close or timeout shows
anything: the log-in notification of an unauthenticated handler is shown from
its trigger until the navigation scheduled 1000 ms later, and not after, and
the notification set by an authenticated buy-now is not shown, the page being
left at once. -/
theorem notification_auto_dismiss (now : Nat) (message : String) (s : State)
    (hmounted : s.mounted = true) :
    (s.isVisible = false →
        (∀ t, t < now + 3000 →
          advance t (trigger now message s) =
            { mounted := true, isVisible := true, message := message,
              timer := some (now + 3000) }) ∧
          (∀ t, now + 3000 ≤ t → advance t (trigger now message s) = hidden)) ∧
      (s.isVisible = true →
        trigger now message s =
          { mounted := true, isVisible := true, message := message, timer := s.timer }) ∧
      closeNotification s = hidden ∧
      (∀ due t, s.timer = some due → due ≤ t → advance t s = hidden) ∧
      (shown (unmount s) = false ∧ (unmount s).timer = none ∧
        ∀ t later, shown (advance t (unmount s)) = false ∧
          shown (trigger t later (unmount s)) = false ∧
          shown (closeNotification (unmount s)) = false) ∧
      (∀ token outcome homeProduct listProduct detailProduct quantity t,
        ∀ events ∈
          [ eventsOfTrace now (Home.handleAddToCart false token outcome homeProduct),
            eventsOfTrace now (ProductPage.handleAddToCart false token outcome listProduct),
            eventsOfTrace now
              (ViewProduct.handleAddToCart false token outcome detailProduct quantity),
            eventsOfTrace now
              (ViewProduct.handleBuyNow false token outcome detailProduct quantity) ],
          (now ≤ t → t < now + 1000 → shown (stateAt t events hidden) = true) ∧
            (now + 1000 ≤ t → shown (stateAt t events hidden) = false)) ∧
      (∀ token outcome detailProduct quantity t, now ≤ t →
        shown (stateAt t
          (eventsOfTrace now
            (ViewProduct.handleBuyNow true token outcome detailProduct quantity))
          hidden) = false) := by
  rcases s with ⟨mounted, isVisible, msg, timer⟩
  simp only at hmounted
  subst hmounted
  refine ⟨fun hv => ⟨fun t ht => ?_, fun t ht => ?_⟩, fun hv => ?_, rfl,
    fun due t hd ht => ?_, ⟨rfl, rfl, fun t later => ⟨rfl, rfl, rfl⟩⟩,
    fun token outcome homeProduct listProduct detailProduct quantity t events hev => ?_,
    fun token outcome detailProduct quantity t ht =>
      buy_now_notification_not_shown now t ht token outcome detailProduct quantity⟩
  · simp only at hv
    have hnot : ¬ (now + 3000 ≤ t) := by omega
    simp [advance, trigger, hv, hnot]
  · simp only at hv
    simp [advance, trigger, hv, ht, closeNotification, hidden]
  · simp only at hv
    simp [trigger, hv]
  · simp only at hd
    simp [advance, hd, ht, closeNotification, hidden]
  · simp only [List.mem_cons, List.mem_singleton, List.not_mem_nil, or_false] at hev
    rcases hev with h | h | h | h <;> subst h
    · exact login_notification_shown_one_second now t _
    · exact login_notification_shown_one_second now t _
    · exact login_notification_shown_one_second now t _
    · exact login_notification_shown_one_second now t _

/-- Witness for C21 as amended: a notification triggered at 500 ms on a hidden
state is visible at 3499 ms and hidden at 3500 ms. -/
theorem notification_auto_dismiss_witness :
    advance 3499 (trigger 500 "Added" hidden) =
        { mounted := true, isVisible := true, message := "Added", timer := some 3500 } ∧
      advance 3500 (trigger 500 "Added" hidden) = hidden :=
  ⟨((notification_auto_dismiss 500 "Added" hidden rfl).1 rfl).1 3499 (by decide),
    ((notification_auto_dismiss 500 "Added" hidden rfl).1 rfl).2 3500 (by decide)⟩

end Notification

/-! ## Simulated ratings (C22) -/

namespace ProductPage

theorem simulatedRating_bounds (p : RawProduct) :
    1 ≤ (loadProduct p).simulatedRating ∧ (loadProduct p).simulatedRating ≤ 4 := by
  have h := Int.tmod_lt_of_pos p.id (show (0 : Int) < 5 by decide)
  simp only [loadProduct]
  omega

theorem not_passesFilters_of_rating_five (filters : Filters) (m : Int) (p : RawProduct)
    (h5 : filters.minRating = 5) : ¬ passesFilters filters m (loadProduct p) = true := by
  have hb := (simulatedRating_bounds p).2
  intro hpass
  unfold passesFilters at hpass
  simp only [Bool.and_eq_true, Bool.or_eq_true, decide_eq_true_eq, h5] at hpass
  have := hpass.2.2.2
  omega

/-- C22: for every integer product id the simulated rating assigned by the loader
lies between 1 and 4; so for every loaded product collection a filter
specification with minimum rating 5, a value the rating sidebar offers, gives an
empty filtered result whenever the filter produces a result, which it does
whenever the search query is empty or every product has a name. -/
theorem rating_five_filters_everything (products : List RawProduct) (filters : Filters)
    (h5 : filters.minRating = 5) :
    (∀ p : RawProduct,
        1 ≤ (loadProduct p).simulatedRating ∧ (loadProduct p).simulatedRating ≤ 4) ∧
      (∀ r, applyFilters (validProducts products) filters = .ok r → r = []) ∧
      ((filters.searchQuery = "" ∨ ∀ p ∈ validProducts products, p.name ≠ none) →
        applyFilters (validProducts products) filters = .ok []) ∧
      (5 : Int) ∈ ratings ∧
      (handleRatingChange initialFilters 5).minRating = 5 := by
  have hnil : (validProducts products).filter
      (passesFilters filters (maxPrice (validProducts products))) = [] := by
    rw [List.filter_eq_nil_iff]
    intro p hp
    obtain ⟨raw, _, rfl⟩ := List.mem_map.1 hp
    exact not_passesFilters_of_rating_five filters _ raw h5
  refine ⟨simulatedRating_bounds, ?_, ?_, by decide, rfl⟩
  · intro r h
    unfold applyFilters at h
    rw [((computeFiltered_ok_iff _ _ _ _).1 h).2, hnil]
  · intro hn
    unfold applyFilters
    exact (computeFiltered_ok_iff _ _ _ _).2 ⟨hn, hnil.symm⟩

/-- Witness for C22: the 25-item scenario filtered by five stars. -/
theorem rating_five_filters_everything_witness :
    applyFilters (validProducts scenarioProducts) (handleRatingChange initialFilters 5) =
      .ok [] :=
  (rating_five_filters_everything scenarioProducts (handleRatingChange initialFilters 5)
    rfl).2.2.1 (Or.inl rfl)

end ProductPage

/-! ## Cart and Checkout subtotals side by side (C23) -/

/-- The two subtotals agree whenever the server total is present and non-zero. -/
theorem subtotals_agree_of_total (cart : CartData) (t : Int) (ht : cart.total_price = some t)
    (hne : t ≠ 0) : Cart.subtotal (some cart) = Checkout.subtotal (some cart) := by
  simp [Cart.subtotal, Checkout.subtotal, ht, numOr, hne]

/-- C23 at the failing input: for a cart whose server total is zero and whose only
item has no `price_at_addition` but a product price of 5000, the Cart page shows
subtotal 0 and the Checkout page shows subtotal 5000, because only the Checkout
page falls back to the product price. -/
theorem cart_and_checkout_subtotals_differ :
    Cart.subtotal (some fallbackCart) = 0 ∧
      Checkout.subtotal (some fallbackCart) = 5000 ∧
      Cart.subtotal (some fallbackCart) ≠ Checkout.subtotal (some fallbackCart) :=
  ⟨rfl, rfl, by decide⟩

/-! ## Placing the order (C24, C25) -/

namespace Checkout

/-- C24: `handlePlaceOrder` sends the order request exactly when all six required
shipping fields are non-empty and the cart has at least one item; when a
required field is empty or the cart is empty, no request is sent, no
`cartUpdated` is dispatched and `setProcessing` is never called; the notes field
has no influence on what the handler does. -/
theorem place_order_only_when_complete (shippingInfo : ShippingInfo)
    (cartData : Option CartData) (token : Option String) (outcome : OrderOutcome) :
    (Effect.placeOrder token ∈ handlePlaceOrder shippingInfo cartData token outcome ↔
        (shippingInfo.fullName ≠ "" ∧ shippingInfo.email ≠ "" ∧ shippingInfo.phone ≠ "" ∧
          shippingInfo.address ≠ "" ∧ shippingInfo.city ≠ "" ∧
          shippingInfo.postalCode ≠ "") ∧
        (cartItems cartData).length ≠ 0) ∧
      ((shippingInfo.fullName = "" ∨ shippingInfo.email = "" ∨ shippingInfo.phone = "" ∨
          shippingInfo.address = "" ∨ shippingInfo.city = "" ∨ shippingInfo.postalCode = "" ∨
          (cartItems cartData).length = 0) →
        (∀ t, Effect.placeOrder t ∉ handlePlaceOrder shippingInfo cartData token outcome) ∧
          cartUpdatedCount (handlePlaceOrder shippingInfo cartData token outcome) = 0 ∧
          ∀ b, Effect.setProcessing b ∉ handlePlaceOrder shippingInfo cartData token outcome) ∧
      (∀ notes,
        handlePlaceOrder { shippingInfo with notes := notes } cartData token outcome =
          handlePlaceOrder shippingInfo cartData token outcome) := by
  refine ⟨?_, ?_, fun notes => rfl⟩
  · by_cases hf : shippingInfo.fullName = "" ∨ shippingInfo.email = "" ∨
        shippingInfo.phone = "" ∨ shippingInfo.address = "" ∨ shippingInfo.city = "" ∨
        shippingInfo.postalCode = ""
    · have hno : ¬ (shippingInfo.fullName ≠ "" ∧ shippingInfo.email ≠ "" ∧
          shippingInfo.phone ≠ "" ∧ shippingInfo.address ≠ "" ∧ shippingInfo.city ≠ "" ∧
          shippingInfo.postalCode ≠ "") := by tauto
      simp [handlePlaceOrder, hf, hno]
    · have hyes : shippingInfo.fullName ≠ "" ∧ shippingInfo.email ≠ "" ∧
          shippingInfo.phone ≠ "" ∧ shippingInfo.address ≠ "" ∧ shippingInfo.city ≠ "" ∧
          shippingInfo.postalCode ≠ "" := by tauto
      by_cases hc : (cartItems cartData).length = 0
      · simp [handlePlaceOrder, hf, hc, hyes]
      · simp [handlePlaceOrder, hf, hc, hyes]
  · intro h
    by_cases hf : shippingInfo.fullName = "" ∨ shippingInfo.email = "" ∨
        shippingInfo.phone = "" ∨ shippingInfo.address = "" ∨ shippingInfo.city = "" ∨
        shippingInfo.postalCode = ""
    · simp [handlePlaceOrder, hf, cartUpdatedCount]
    · have hc : (cartItems cartData).length = 0 := by tauto
      simp [handlePlaceOrder, hf, hc, cartUpdatedCount]

/-- Witness for C24: with the phone number missing nothing is sent, and with the
form complete and the scenario cart the request is sent. -/
theorem place_order_only_when_complete_witness :
    (∀ t, Effect.placeOrder t ∉
        handlePlaceOrder { completeShippingInfo with phone := "" } (some scenarioCart)
          (some "token") orderPlaced) ∧
      Effect.placeOrder (some "token") ∈
        handlePlaceOrder completeShippingInfo (some scenarioCart) (some "token") orderPlaced :=
  ⟨((place_order_only_when_complete { completeShippingInfo with phone := "" }
      (some scenarioCart) (some "token") orderPlaced).2.1 (Or.inr (Or.inr (Or.inl rfl)))).1,
    (place_order_only_when_complete completeShippingInfo (some scenarioCart) (some "token")
      orderPlaced).1.2 (by decide)⟩

/-- C25 at the failing input: after a successful order the handler itself navigates
only to the order-success page, but the `cartUpdated` event it dispatches starts
`loadCart` on the Checkout page, and when that re-fetch returns the now empty
cart, a navigation to the shop is scheduled after 1500 ms. -/
theorem order_success_refetch_schedules_shop :
    handlePlaceOrder completeShippingInfo (some scenarioCart) (some "token") orderPlaced =
        [ .setProcessing true, .consoleLog "Sending order data to API:",
          .placeOrder (some "token"), .consoleLog "Order API response:", .clearCartData,
          .dispatchEvent "cartUpdated", .navigate "/ordersuccess", .setProcessing false ] ∧
      placeOrderAndRefetch true completeShippingInfo
          { cartData := some scenarioCart, loading := false, error := "" } (some "token")
          orderPlaced (.resolved (some ⟨true, none, some emptyCart⟩)) =
        handlePlaceOrder completeShippingInfo (some scenarioCart) (some "token") orderPlaced ++
          [ .getCart (some "token"), .setTimeoutNavigate "/shop" 1500 ] ∧
      Effect.setTimeoutNavigate "/shop" 1500 ∈
        placeOrderAndRefetch true completeShippingInfo
          { cartData := some scenarioCart, loading := false, error := "" } (some "token")
          orderPlaced (.resolved (some ⟨true, none, some emptyCart⟩)) :=
  ⟨rfl, rfl, by decide⟩

end Checkout

/-! ## The quantity selector (C26) -/

namespace ViewProduct

theorem stockLimit_eq (product : Product)
    (hstock : product.stock = none ∨ ∃ n, product.stock = some n ∧ 0 ≤ n) :
    stockLimit product = max 1 (product.stock.getD 0) := by
  unfold stockLimit numOr
  rcases hstock with h | ⟨n, h, hn⟩
  · simp [h]
  · by_cases h0 : n = 0
    · simp [h, h0]
    · simp only [h, ne_eq, h0, not_false_eq_true, if_true, Option.getD_some]
      omega

/-- C26: on the product detail page, for a product whose stock is a non-negative
integer or missing, the quantity stays within 1..max(1, stock) (missing stock
counting as 0): the initial quantity 1 is within the bounds, and the decrement
button, the increment button and the typed input of any text keep it there;
with stock 0 every handler gives quantity 1. -/
theorem quantity_stays_within_stock (product : Product)
    (hstock : product.stock = none ∨ ∃ n, product.stock = some n ∧ 0 ≤ n) :
    (1 ≤ initialQuantity ∧ initialQuantity ≤ max 1 (product.stock.getD 0)) ∧
      (∀ q, 1 ≤ q → q ≤ max 1 (product.stock.getD 0) →
        (1 ≤ decrementQuantity q ∧ decrementQuantity q ≤ max 1 (product.stock.getD 0)) ∧
          (1 ≤ incrementQuantity product q ∧
            incrementQuantity product q ≤ max 1 (product.stock.getD 0))) ∧
      (∀ text, 1 ≤ handleQuantityInput product text ∧
        handleQuantityInput product text ≤ max 1 (product.stock.getD 0)) ∧
      (product.stock = some 0 →
        decrementQuantity initialQuantity = 1 ∧ incrementQuantity product initialQuantity = 1 ∧
          ∀ text, handleQuantityInput product text = 1) := by
  have hlim := stockLimit_eq product hstock
  refine ⟨?_, ?_, ?_, ?_⟩
  · unfold initialQuantity
    omega
  · intro q h1 h2
    unfold decrementQuantity incrementQuantity
    rw [hlim]
    omega
  · intro text
    unfold handleQuantityInput
    rw [hlim]
    omega
  · intro h0
    unfold decrementQuantity incrementQuantity handleQuantityInput initialQuantity
    rw [hlim, h0]
    simp only [Option.getD_some]
    refine ⟨by omega, by omega, fun text => by omega⟩

/-- Witness for C26: a product with 5 in stock, quantity 5, and the typed
text 99. -/
theorem quantity_stays_within_stock_witness :
    incrementQuantity ⟨7, some "Tea", some "Box", some 5⟩ 5 ≤ 5 ∧
      handleQuantityInput ⟨7, some "Tea", some "Box", some 5⟩ "99" ≤ 5 :=
  ⟨((quantity_stays_within_stock ⟨7, some "Tea", some "Box", some 5⟩
      (Or.inr ⟨5, rfl, by decide⟩)).2.1 5 (by decide) (by decide)).2.2,
    ((quantity_stays_within_stock ⟨7, some "Tea", some "Box", some 5⟩
      (Or.inr ⟨5, rfl, by decide⟩)).2.2.1 "99").2⟩

end ViewProduct

/-! ## The page-number window (C27) -/

namespace ProductPage

/-- C27: for a current page within 1..totalPages, the window computed by
`Pagination` satisfies 1 ≤ startPage ≤ currentPage ≤ endPage ≤ totalPages and
holds exactly min(5, totalPages) page numbers, which are the consecutive
integers from startPage to endPage. -/
theorem page_window_spec (currentPage totalPages : Int) (hlow : 1 ≤ currentPage)
    (hhigh : currentPage ≤ totalPages) :
    1 ≤ (pageWindow currentPage totalPages).1 ∧
      (pageWindow currentPage totalPages).1 ≤ currentPage ∧
      currentPage ≤ (pageWindow currentPage totalPages).2 ∧
      (pageWindow currentPage totalPages).2 ≤ totalPages ∧
      (pageWindow currentPage totalPages).2 - (pageWindow currentPage totalPages).1 + 1 =
        min 5 totalPages ∧
      pageNumbers currentPage totalPages =
        (List.range (min 5 totalPages).toNat).map
          (fun (i : Nat) => (pageWindow currentPage totalPages).1 + (i : Int)) ∧
      ((pageNumbers currentPage totalPages).length : Int) = min 5 totalPages := by
  have hw : 1 ≤ (pageWindow currentPage totalPages).1 ∧
      (pageWindow currentPage totalPages).1 ≤ currentPage ∧
      currentPage ≤ (pageWindow currentPage totalPages).2 ∧
      (pageWindow currentPage totalPages).2 ≤ totalPages ∧
      (pageWindow currentPage totalPages).2 - (pageWindow currentPage totalPages).1 + 1 =
        min 5 totalPages := by
    simp only [pageWindow, maxPagesToShow]
    split_ifs <;> omega
  obtain ⟨h1, h2, h3, h4, h5⟩ := hw
  have hpn : pageNumbers currentPage totalPages =
      (List.range (min 5 totalPages).toNat).map
        (fun (i : Nat) => (pageWindow currentPage totalPages).1 + (i : Int)) := by
    unfold pageNumbers
    simp only [h5]
  refine ⟨h1, h2, h3, h4, h5, hpn, ?_⟩
  rw [hpn, List.length_map, List.length_range]
  omega

/-- Witness for C27: page 9 of 10 shows the page numbers 6 to 10. -/
theorem page_window_spec_witness :
    pageNumbers 9 10 = (List.range (min 5 (10 : Int)).toNat).map (fun (i : Nat) => 6 + (i : Int)) :=
  (page_window_spec 9 10 (by decide) (by decide)).2.2.2.2.2.1

end ProductPage

/-! ## The filter on a product without a name (C28) -/

namespace ProductPage

/-- C28 at the failing input: the loader accepts a product that has an image but no
name, and with the search query `a` the filter step on the loaded collection
raises a type error instead of completing. -/
theorem filter_throws_on_nameless_product :
    loadData (.resolved (successResponse [namelessProduct]))
        { products := [], loading := true, error := "" } =
        { products := [loadProduct namelessProduct], loading := false, error := "" } ∧
      filterEffect
          { products := validProducts [namelessProduct], filteredProducts := [],
            currentPage := 1, filters := { initialFilters with searchQuery := "a" } } =
        .error (.typeError "Cannot read properties of undefined (reading toLowerCase)") :=
  ⟨rfl, rfl⟩

end ProductPage

/-! ## The deal countdown (C29) -/

namespace Home

theorem tick_valid (t : Time) (hv : t.valid) : (tick t).valid := by
  unfold Time.valid at hv ⊢
  unfold tick
  split_ifs <;> (try dsimp only) <;> omega

theorem totalSeconds_tick (t : Time) (hv : t.valid) :
    totalSeconds (tick t) = max 0 (totalSeconds t - 1) := by
  unfold Time.valid at hv
  unfold tick totalSeconds
  split_ifs <;> (try dsimp only) <;> omega

theorem ticks_valid : ∀ (n : Nat) (t : Time), t.valid → (ticks n t).valid
  | 0, _, hv => hv
  | n + 1, t, hv => ticks_valid n (tick t) (tick_valid t hv)

theorem totalSeconds_ticks : ∀ (n : Nat) (t : Time), t.valid →
    totalSeconds (ticks n t) = max 0 (totalSeconds t - n)
  | 0, t, hv => by
    unfold Time.valid at hv
    simp only [ticks, totalSeconds, Nat.cast_zero, sub_zero]
    omega
  | n + 1, t, hv => by
    have ih := totalSeconds_ticks n (tick t) (tick_valid t hv)
    have hstep := totalSeconds_tick t hv
    simp only [ticks, ih, hstep, Nat.cast_add, Nat.cast_one]
    omega

theorem eq_zero_of_totalSeconds (t : Time) (hv : t.valid) (h0 : totalSeconds t = 0) :
    t = { hours := 0, minutes := 0, seconds := 0 } := by
  unfold Time.valid at hv
  unfold totalSeconds at h0
  rcases t with ⟨h, m, s⟩
  simp only [Time.mk.injEq] at hv h0 ⊢
  omega

/-- C29: the tick of `DealCountdown` maps every valid time to a valid time; when
time is left the total number of seconds drops by exactly one, and 00:00:00 is
mapped to itself. Hence from a valid time of T seconds the countdown is at
00:00:00 after exactly T ticks, not before, stays there, and never shows a
negative time. -/
theorem countdown_ticks_to_zero (t : Time) (hv : t.valid) :
    (tick t).valid ∧
      (0 < totalSeconds t → totalSeconds (tick t) = totalSeconds t - 1) ∧
      tick { hours := 0, minutes := 0, seconds := 0 } =
        { hours := 0, minutes := 0, seconds := 0 } ∧
      ticks (totalSeconds t).toNat t = { hours := 0, minutes := 0, seconds := 0 } ∧
      (∀ n, n < (totalSeconds t).toNat →
        ticks n t ≠ { hours := 0, minutes := 0, seconds := 0 }) ∧
      (∀ n, (totalSeconds t).toNat ≤ n →
        ticks n t = { hours := 0, minutes := 0, seconds := 0 }) ∧
      (∀ n, (ticks n t).valid ∧ 0 ≤ totalSeconds (ticks n t)) := by
  have htotal : 0 ≤ totalSeconds t := by
    unfold Time.valid at hv
    unfold totalSeconds
    omega
  have hzero : ∀ n, (totalSeconds t).toNat ≤ n →
      ticks n t = { hours := 0, minutes := 0, seconds := 0 } := by
    intro n hn
    apply eq_zero_of_totalSeconds _ (ticks_valid n t hv)
    rw [totalSeconds_ticks n t hv]
    omega
  refine ⟨tick_valid t hv, ?_, rfl, hzero _ (le_refl _), ?_, hzero, ?_⟩
  · intro hpos
    rw [totalSeconds_tick t hv]
    omega
  · intro n hn hc
    have h := totalSeconds_ticks n t hv
    have hz : totalSeconds { hours := 0, minutes := 0, seconds := 0 } = 0 := rfl
    rw [hc, hz] at h
    omega
  · intro n
    refine ⟨ticks_valid n t hv, ?_⟩
    rw [totalSeconds_ticks n t hv]
    omega

/-- Witness for C29: one tick from 01:00:00 gives 00:59:59, and the initial time
12:34:56 is valid. -/
theorem countdown_ticks_to_zero_witness :
    totalSeconds (tick { hours := 1, minutes := 0, seconds := 0 }) =
        totalSeconds { hours := 1, minutes := 0, seconds := 0 } - 1 ∧
      (tick initialTime).valid :=
  ⟨(countdown_ticks_to_zero { hours := 1, minutes := 0, seconds := 0 } (by decide)).2.1
      (by decide),
    (countdown_ticks_to_zero initialTime (by decide)).1⟩

end Home

/-! ## Initials (C30) -/

namespace Navbar

theorem splitSpaces_ne_nil : ∀ cs : List Char, splitSpaces cs ≠ []
  | [] => by simp [splitSpaces]
  | c :: cs => by
    have ih := splitSpaces_ne_nil cs
    unfold splitSpaces
    cases h : splitSpaces cs with
    | nil => exact absurd h ih
    | cons w ws =>
      by_cases hc : c = ' ' <;> simp [hc]

/-- The parts returned by the split contain no space, and joining them with
single spaces gives back the text. -/
theorem splitSpaces_spec : ∀ cs : List Char,
    (∀ w ∈ splitSpaces cs, ' ' ∉ w) ∧ List.intercalate [' '] (splitSpaces cs) = cs
  | [] => by simp [splitSpaces, List.intercalate]
  | c :: cs => by
    obtain ⟨ih1, ih2⟩ := splitSpaces_spec cs
    unfold splitSpaces
    cases h : splitSpaces cs with
    | nil => exact absurd h (splitSpaces_ne_nil cs)
    | cons w ws =>
      rw [h] at ih1 ih2
      by_cases hc : c = ' '
      · subst hc
        simp only [if_true]
        refine ⟨?_, ?_⟩
        · intro v hv
          rcases List.mem_cons.1 hv with rfl | hv'
          · simp
          · exact ih1 v hv'
        · rw [← ih2]
          simp [List.intercalate, List.intersperse]
      · simp only [hc, if_false]
        refine ⟨?_, ?_⟩
        · intro v hv
          rcases List.mem_cons.1 hv with rfl | hv'
          · intro hmem
            rcases List.mem_cons.1 hmem with hx | hx
            · exact hc hx.symm
            · exact ih1 w (List.mem_cons_self _ _) hx
          · exact ih1 v (List.mem_cons_of_mem _ hv')
        · rw [← ih2]
          cases ws <;> simp [List.intercalate, List.intersperse]

theorem splitSpaces_replicate : ∀ n : Nat,
    splitSpaces (List.replicate n ' ') = List.replicate (n + 1) []
  | 0 => rfl
  | n + 1 => by
    rw [List.replicate_succ, splitSpaces, splitSpaces_replicate n]
    simp [List.replicate_succ]

theorem nameParts_ne_nil_mem (name : String) (w : List Char) (hw : w ∈ nameParts name) :
    w ≠ [] := by
  unfold nameParts at hw
  have := (List.mem_filter.1 hw).2
  intro hnil
  simp [hnil] at this

theorem toUpperCase_data_ne_nil (cs : List Char) (h : cs ≠ []) :
    (toUpperCase ⟨cs⟩).data ≠ [] := by
  cases cs with
  | nil => exact absurd rfl h
  | cons c cs => simp [toUpperCase]

/-- C30: `getInitials` never returns the empty string. It returns `AC` when the
name is missing, empty or made only of spaces; for a name with two or more
space-separated words it returns the upper-cased first character of the first
word followed by the upper-cased first character of the second word; for a
single-word name it returns the upper-cased first two characters of the word
(one character when the word has length 1). Words are the non-empty parts of
the split at single spaces. -/
theorem getInitials_spec (name : Option String) :
    getInitials name ≠ "" ∧
      getInitials none = "AC" ∧
      getInitials (some "") = "AC" ∧
      (∀ n, getInitials (some ⟨List.replicate n ' '⟩) = "AC") ∧
      (∀ (s : String) (first second : List Char) (rest : List (List Char)),
        nameParts s = first :: second :: rest →
          first ≠ [] ∧ second ≠ [] ∧
            getInitials (some s) =
              toUpperCase ⟨first.take 1⟩ ++ toUpperCase ⟨second.take 1⟩) ∧
      (∀ (s : String) (only : List Char),
        nameParts s = [only] →
          only ≠ [] ∧ getInitials (some s) = toUpperCase ⟨only.take 2⟩ ∧
            (only.length = 1 → getInitials (some s) = toUpperCase ⟨only⟩)) := by
  have hne : ∀ s : String, nameParts s ≠ [] → s ≠ "" := by
    intro s hs hempty
    apply hs
    rw [hempty]
    rfl
  have htake : ∀ (w : List Char) (k : Nat), w ≠ [] → 0 < k → w.take k ≠ [] := by
    intro w k hw hk
    cases w with
    | nil => exact absurd rfl hw
    | cons c cs =>
      cases k with
      | zero => exact absurd hk (Nat.lt_irrefl 0)
      | succ k => simp
  refine ⟨?_, rfl, rfl, ?_, ?_, ?_⟩
  · cases name with
    | none => decide
    | some s =>
      unfold getInitials
      by_cases hs : s = ""
      · simp only [hs, if_true]
        decide
      · simp only [hs, if_false]
        cases hp : nameParts s with
        | nil => decide
        | cons first tl =>
          have hfirst : first ≠ [] :=
            nameParts_ne_nil_mem s first (by rw [hp]; exact List.mem_cons_self _ _)
          cases tl with
          | nil =>
            intro hc
            have := congrArg String.data hc
            exact toUpperCase_data_ne_nil _ (htake first 2 hfirst (by decide)) this
          | cons second rest =>
            intro hc
            have := congrArg String.data hc
            rw [String.data_append] at this
            have h1 := toUpperCase_data_ne_nil _ (htake first 1 hfirst (by decide))
            have hnil : ("" : String).data = [] := rfl
            rw [hnil, List.append_eq_nil] at this
            exact h1 this.1
  · intro n
    unfold getInitials
    by_cases hs : (⟨List.replicate n ' '⟩ : String) = ""
    · simp only [hs, if_true]
    · simp only [hs, if_false]
      have hparts : nameParts ⟨List.replicate n ' '⟩ = [] := by
        unfold nameParts
        rw [splitSpaces_replicate, List.filter_eq_nil_iff]
        intro w hw
        rw [List.eq_of_mem_replicate hw]
        simp
      rw [hparts]
  · intro s first second rest hp
    have hfirst : first ≠ [] :=
      nameParts_ne_nil_mem s first (by rw [hp]; exact List.mem_cons_self _ _)
    have hsecond : second ≠ [] :=
      nameParts_ne_nil_mem s second
        (by rw [hp]; exact List.mem_cons_of_mem _ (List.mem_cons_self _ _))
    refine ⟨hfirst, hsecond, ?_⟩
    have hs : s ≠ "" := hne s (by rw [hp]; simp)
    simp only [getInitials, hs, if_false, hp]
  · intro s only hp
    have honly : only ≠ [] :=
      nameParts_ne_nil_mem s only (by rw [hp]; exact List.mem_cons_self _ _)
    have hs : s ≠ "" := hne s (by rw [hp]; simp)
    have hget : getInitials (some s) = toUpperCase ⟨only.take 2⟩ := by
      simp only [getInitials, hs, if_false, hp]
    refine ⟨honly, hget, fun hlen => ?_⟩
    rw [hget, List.take_of_length_le (by omega)]

/-- Witness for C30: a name of three words and a name of one word. -/
theorem getInitials_spec_witness :
    getInitials (some "aliman fijar buana") = "AF" ∧ getInitials (some "bob") = "BO" :=
  ⟨((getInitials_spec none).2.2.2.2.1 "aliman fijar buana" "aliman".data "fijar".data
      ["buana".data] (by decide)).2.2,
    ((getInitials_spec none).2.2.2.2.2 "bob" "bob".data (by decide)).2.1⟩

end Navbar

/-! ## The page reset on a product without a name (C7) -/

namespace ProductPage

/-- C7 at the failing input: on page 2 of a collection holding a loaded product
without a name, changing the search query to `a` makes the filter effect raise a
type error in the search callback before `setCurrentPage(1)` runs, so the
current page is still 2 after the change; with the query left empty the same
change of state resets the page to 1. -/
theorem filter_change_throws_before_page_reset :
    filterEffect
        { products := validProducts [namelessProduct],
          filteredProducts := validProducts [namelessProduct], currentPage := 2,
          filters := { initialFilters with searchQuery := "a" } } =
        .error (.typeError "Cannot read properties of undefined (reading toLowerCase)") ∧
      (afterFilterEffect
        { products := validProducts [namelessProduct],
          filteredProducts := validProducts [namelessProduct], currentPage := 2,
          filters := { initialFilters with searchQuery := "a" } }).currentPage = 2 ∧
      (afterFilterEffect
        { products := validProducts [namelessProduct],
          filteredProducts := validProducts [namelessProduct], currentPage := 2,
          filters := { initialFilters with minRating := 1 } }).currentPage = 1 :=
  ⟨rfl, rfl, rfl⟩

end ProductPage

/-! ## Filtering twice, with and without numeric prices (C2) -/

theorem filterE_map {α β : Type} (g : β → Except JsError Bool) (h : α → β) :
    ∀ l : List α,
      filterE g (l.map h) = Except.map (List.map h) (filterE (fun x => g (h x)) l)
  | [] => rfl
  | x :: xs => by
    have ih := filterE_map g h xs
    simp only [List.map_cons, filterE, ih]
    cases hx : g (h x) with
    | error e => rfl
    | ok b =>
      cases hxs : filterE (fun x => g (h x)) xs with
      | error e => rfl
      | ok r => cases b <;> rfl

namespace ProductPage

theorem numericPrices_map_toStored : ∀ l : List Product,
    numericPrices (l.map Product.toStored) = some (l.map Product.price)
  | [] => rfl
  | p :: ps => by
    simp only [List.map_cons, numericPrices, numericPrices_map_toStored ps]
    rfl

theorem storedMaxPrice_map_toStored (l : List Product) :
    storedMaxPrice (l.map Product.toStored) = some (maxPrice l) := by
  cases l with
  | nil => rfl
  | cons p ps =>
    have h := numericPrices_map_toStored (p :: ps)
    simp only [List.map_cons] at h
    simp only [List.map_cons, storedMaxPrice, h, maxPrice]

theorem toStored_toProduct (p : StoredProduct) (hp : p.price ≠ none) :
    p.toProduct.toStored = p := by
  rcases p with ⟨id, name, price, category, image, rating, unit⟩
  cases price with
  | none => exact absurd rfl hp
  | some v => rfl

theorem map_toStored_toProduct (l : List StoredProduct) (h : ∀ p ∈ l, p.price ≠ none) :
    (l.map StoredProduct.toProduct).map Product.toStored = l := by
  rw [List.map_map]
  conv_rhs => rw [← List.map_id l]
  apply List.map_congr_left
  intro p hp
  exact toStored_toProduct p (h p hp)

/-- On products with a numeric price the filter effect on stored products does
what the filter effect on `Product` does. -/
theorem computeFilteredStored_map (l : List Product) (filters : Filters) (m : Int) :
    computeFilteredStored (l.map Product.toStored) filters (some m) =
      Except.map (List.map Product.toStored) (computeFiltered l filters m) := by
  have hcb : (fun x => storedSearchCallback (toLowerCase filters.searchQuery)
      (Product.toStored x)) = searchCallback (toLowerCase filters.searchQuery) := by
    funext x
    rfl
  have htail : ∀ S : List Product,
      (let filtered :=
          if filters.categories.length > 0 then
            (S.map Product.toStored).filter
              (fun (product : StoredProduct) =>
                filters.categories.contains product.category_name)
          else S.map Product.toStored
        let filtered :=
          match filters.priceRange, some m with
          | some priceRange, some maxPrice =>
            if priceRange.max < maxPrice then
              filtered.filter (fun (product : StoredProduct) =>
                match product.price with
                | some price => decide (price ≤ priceRange.max)
                | none => false)
            else filtered
          | _, _ => filtered
        let filtered :=
          if filters.minRating > 0 then
            filtered.filter
              (fun (product : StoredProduct) => product.simulatedRating ≥ filters.minRating)
          else filtered
        filtered) =
        (let filtered :=
            if filters.categories.length > 0 then
              S.filter
                (fun (product : Product) => filters.categories.contains product.category_name)
            else S
          let filtered :=
            match filters.priceRange with
            | some priceRange =>
              if priceRange.max < m then
                filtered.filter (fun (product : Product) => product.price ≤ priceRange.max)
              else filtered
            | none => filtered
          let filtered :=
            if filters.minRating > 0 then
              filtered.filter
                (fun (product : Product) => product.simulatedRating ≥ filters.minRating)
            else filtered
          filtered).map Product.toStored := by
    intro S
    simp only []
    cases hpr : filters.priceRange with
    | none => split_ifs <;> simp [List.filter_map, Function.comp_def, Product.toStored]
    | some pr =>
      by_cases hp : pr.max < m <;> split_ifs <;>
        simp [List.filter_map, Function.comp_def, Product.toStored, hp]
  unfold computeFilteredStored computeFiltered
  by_cases hq : filters.searchQuery = ""
  · simp only [hq, ne_eq, not_true_eq_false, if_false]
    have := htail l
    simp only [] at this
    simp only [this]
    rfl
  · simp only [hq, ne_eq, not_false_eq_true, if_true, filterE_map, hcb]
    cases hs : filterE (searchCallback (toLowerCase filters.searchQuery)) l with
    | error e => rfl
    | ok S =>
      have := htail S
      simp only [] at this
      simp only [Except.map, this]

theorem applyFiltersStored_map (l : List Product) (filters : Filters) :
    applyFiltersStored (l.map Product.toStored) filters =
      Except.map (List.map Product.toStored) (applyFilters l filters) := by
  unfold applyFiltersStored applyFilters
  rw [storedMaxPrice_map_toStored, computeFilteredStored_map]

/-- Counterexample to C2: for the collection of an apple priced 150,000 and a book
without a price, the query `apple` and the ceiling 100,000, `maxPrice` is `NaN`,
the price stage is skipped and the filter returns the apple; re-applied to that
result, `maxPrice` is 200,000, the price stage runs and the result is empty. -/
theorem refilter_differs_when_price_missing :
    storedMaxPrice [storedApple, storedBook] = none ∧
      applyFiltersStored [storedApple, storedBook] appleUnderCeiling = .ok [storedApple] ∧
      storedMaxPrice [storedApple] = some 200000 ∧
      applyFiltersStored [storedApple] appleUnderCeiling = .ok [] :=
  ⟨rfl, rfl, rfl, rfl⟩

/-- C2 as amended: for every product collection whose products all have a numeric
price and every filter specification, re-applying the filter to the filtered
result returns that result unchanged, `maxPrice` being derived each time from
the collection that is filtered; the first application produces a result
whenever the search query is empty or every product has a name. -/
theorem stored_filter_idempotent (products : List StoredProduct) (filters : Filters)
    (hnum : ∀ p ∈ products, p.price ≠ none) :
    (∀ r, applyFiltersStored products filters = .ok r →
        applyFiltersStored r filters = .ok r) ∧
      ((filters.searchQuery = "" ∨ ∀ p ∈ products, p.name ≠ none) →
        ∃ r, applyFiltersStored products filters = .ok r ∧
          applyFiltersStored r filters = .ok r) := by
  have hl := map_toStored_toProduct products hnum
  have hidem := applyFilters_idempotent (products.map StoredProduct.toProduct) filters
  have key : ∀ r0, applyFilters (products.map StoredProduct.toProduct) filters = .ok r0 →
      applyFiltersStored products filters = .ok (r0.map Product.toStored) ∧
        applyFiltersStored (r0.map Product.toStored) filters =
          .ok (r0.map Product.toStored) := by
    intro r0 h0
    constructor
    · rw [← hl, applyFiltersStored_map, h0]
      rfl
    · rw [applyFiltersStored_map, hidem.1 r0 h0]
      rfl
  constructor
  · intro r hr
    cases h0 : applyFilters (products.map StoredProduct.toProduct) filters with
    | error e =>
      rw [← hl, applyFiltersStored_map, h0] at hr
      cases hr
    | ok r0 =>
      obtain ⟨h1, h2⟩ := key r0 h0
      rw [h1] at hr
      cases hr
      exact h2
  · intro hn
    have hn' : filters.searchQuery = "" ∨
        ∀ p ∈ products.map StoredProduct.toProduct, p.name ≠ none := by
      refine hn.imp id (fun hall p hp => ?_)
      obtain ⟨q, hq, rfl⟩ := List.mem_map.1 hp
      exact hall q hq
    obtain ⟨r0, h0, _⟩ := hidem.2 hn'
    exact ⟨_, (key r0 h0).1, (key r0 h0).2⟩

/-- Witness for C2 as amended: the apple alone, whose price is numeric, filtered
twice. -/
theorem stored_filter_idempotent_witness :
    applyFiltersStored [] appleUnderCeiling = .ok [] ∧
      ∃ r, applyFiltersStored [storedApple] appleUnderCeiling = .ok r ∧
        applyFiltersStored r appleUnderCeiling = .ok r :=
  ⟨(stored_filter_idempotent [storedApple] appleUnderCeiling (by decide)).1 [] rfl,
    (stored_filter_idempotent [storedApple] appleUnderCeiling (by decide)).2
      (Or.inr (by decide))⟩

end ProductPage

end Storefront
